import Mathlib

/-!
# Verification of the Beacon commercial-register sync core

A shallow embedding, in Lean, of the parts of the Beacon repository that the
specification's testable properties talk about:

* the deed parser (`app/workers/daily_sync.py`: `parse_company_changes`,
  `_extract_company_data`, `_extract_subdeed_data`), modelled over a JSON-like
  value type with explicit Python exception semantics;
* the merge path (`DailySyncWorker._update_single_company` together with
  `CompanyService.get_company` / `create_company` / `update_company_enrichment`
  from `app/services.py`);
* the per-date sync state machine (`SyncService.is_date_synced`,
  `create_sync_record`, `update_sync_record` and the orchestrator loops in
  `daily_sync.py`);
* the two-tier cache (`app/cache.py`);
* the registry fetch helper (`app/enrichment.py`: `fetch_registry_data`).

Databases and in-process dictionaries are modelled as association lists,
wall-clock instants as natural numbers (seconds), and calendar dates as day
indexes (days since the Unix epoch, so the date string `"2025-08-14"`
corresponds to the day index `20314`).  Python exceptions are modelled with
`Except`; a `try/except` block becomes a `match` on the `Except` result.
-/

namespace Beacon

/-! ## JSON-like Python values

The payloads handled by the worker are decoded JSON documents: nested
dictionaries, lists, strings, numbers, booleans and `None`.  `JValue` is the
universe of such values.  Numbers are modelled as integers (no fractional
numbers appear in any comparison made by the modelled code). -/

inductive JValue where
  | null
  | bool (b : Bool)
  | num (n : Int)
  | str (s : String)
  | arr (elems : List JValue)
  | obj (fields : List (String × JValue))
deriving Repr

/-- Modelled Python exceptions.  Only the class matters to the modelled code
(all handlers are bare `except Exception`), so no payloads are carried. -/
inductive PyErr where
  | typeError
  | keyError
  | attributeError
deriving Repr, DecidableEq

/-- Python truthiness for the values of `JValue`: `None`, `False`, `0`, `""`,
`[]` and `{}` are falsy, everything else is truthy. -/
def pyTruthy : JValue → Bool
  | .null => false
  | .bool b => b
  | .num n => n != 0
  | .str s => s ≠ ""
  | .arr l => !l.isEmpty
  | .obj l => !l.isEmpty

/-- Truthiness of a `dict.get` result: a missing key yields Python `None`,
which is falsy. -/
def optTruthy : Option JValue → Bool
  | none => false
  | some v => pyTruthy v

/-- First binding of a key in an association list (Python dict lookup;
dictionaries never hold duplicate keys, so "first" is exact). -/
def lookupField (k : String) : List (String × JValue) → Option JValue
  | [] => none
  | (k', v) :: rest => if k' = k then some v else lookupField k rest

/-- `needle in haystack` for strings: substring containment. -/
def strContains (hay needle : String) : Bool :=
  (List.range (hay.toList.length + 1)).any fun i =>
    needle.toList.isPrefixOf (hay.toList.drop i)

/-- `key in container` where `key` is a string literal (every `in` check in the
modelled code uses a string needle).  Dicts test key membership, strings test
substring containment, lists test element membership (a string equals a list
element only if that element is the same string), and every other operand
raises `TypeError`, as in Python. -/
def pyContainsStr (needle : String) : JValue → Except PyErr Bool
  | .obj fields => .ok (fields.any fun kv => kv.1 = needle)
  | .str s => .ok (strContains s needle)
  | .arr l => .ok (l.any fun v => match v with | .str t => t = needle | _ => false)
  | _ => .error .typeError

/-- `container[key]` with a string key: dict item access.  Missing keys raise
`KeyError`; subscripting a list or string with a string key, or subscripting a
non-container, raises `TypeError`. -/
def pyGetItemStr (needle : String) : JValue → Except PyErr JValue
  | .obj fields =>
    match lookupField needle fields with
    | some v => .ok v
    | none => .error .keyError
  | _ => .error .typeError

/-- `container.get(key)`: defined only on dicts (`AttributeError` otherwise);
returns `None` for a missing key. -/
def pyGet (needle : String) : JValue → Except PyErr (Option JValue)
  | .obj fields => .ok (lookupField needle fields)
  | _ => .error .attributeError

/-- `for x in container`: lists iterate their elements, strings iterate their
characters (as one-character strings), dicts iterate their keys, and every
other operand raises `TypeError`. -/
def pyIter : JValue → Except PyErr (List JValue)
  | .arr l => .ok l
  | .str s => .ok (s.toList.map fun c => .str (String.mk [c]))
  | .obj fields => .ok (fields.map fun kv => .str kv.1)
  | _ => .error .typeError

/-- `str.strip()`: remove leading and trailing whitespace. -/
def pyStripStr (s : String) : String :=
  String.mk (((s.toList.dropWhile Char.isWhitespace).reverse.dropWhile
    Char.isWhitespace).reverse)

/-- `x.strip()`: defined only on strings (`AttributeError` otherwise). -/
def pyStrip : JValue → Except PyErr String
  | .str s => .ok (pyStripStr s)
  | _ => .error .attributeError

/-- `isinstance(x, dict)` -/
def isDict : JValue → Bool
  | .obj _ => true
  | _ => false

/-- `isinstance(x, list)` -/
def isList : JValue → Bool
  | .arr _ => true
  | _ => false

/-! ## Deed parser (`DailySyncWorker.parse_company_changes` and helpers)

`company_data` is the dictionary built by `_extract_company_data`
(daily_sync.py lines 230-239).  The Python dictionary initially has no
`website` key; since the only observers are `dict.get` calls, an absent key is
observationally identical to an explicit `None`, and both are modelled as
`JValue.null`. -/

structure CompanyData where
  uid : JValue
  name : JValue
  legal_form : JValue
  status : JValue
  manager : JValue
  address : JValue
  phone : JValue
  email : JValue
  website : JValue
deriving Repr

/-- The `Managers` loop body of `_extract_subdeed_data`: first entry that is a
dict with a truthy `_` value whose `strip()` is non-empty wins (`break`); a
truthy non-string `_` value makes `.strip()` raise `AttributeError`. -/
def firstManagerLoop : List JValue → Except PyErr (Option String)
  | [] => .ok none
  | entry :: rest =>
    match entry with
    | .obj fields =>
      match lookupField "_" fields with
      | some managerName =>
        if pyTruthy managerName then
          match pyStrip managerName with
          | .error e => .error e
          | .ok stripped =>
            if stripped = "" then firstManagerLoop rest
            else .ok (some stripped)
        else firstManagerLoop rest
      | none => firstManagerLoop rest
    | _ => firstManagerLoop rest

/-- `if 'Managers' in subdeed: for manager_entry in subdeed['Managers']: ...`
(daily_sync.py lines 256-262).  Returns the (possibly) updated `company_data`
together with the exception, if one was raised. -/
def managersPhase (subdeed : JValue) (cd : CompanyData) : CompanyData × Option PyErr :=
  match pyContainsStr "Managers" subdeed with
  | .error e => (cd, some e)
  | .ok false => (cd, none)
  | .ok true =>
    match pyGetItemStr "Managers" subdeed with
    | .error e => (cd, some e)
    | .ok managersVal =>
      match pyIter managersVal with
      | .error e => (cd, some e)
      | .ok entries =>
        match firstManagerLoop entries with
        | .error e => (cd, some e)
        | .ok none => (cd, none)
        | .ok (some m) => ({ cd with manager := .str m }, none)

/-- One address sub-component (daily_sync.py lines 277-299): append
`addr[key]` (or its first element when it is a truthy list) when truthy. -/
def addressComponent (addr : List (String × JValue)) (key : String) : List JValue :=
  match lookupField key addr with
  | some v =>
    if pyTruthy v then
      match v with
      | .arr (x :: _) => [x]
      | _ => [v]
    else []
  | none => []

/-- `', '.join(items)`: every element must be a string, otherwise `TypeError`. -/
def pyJoin (sep : String) : List JValue → Except PyErr String
  | [] => .ok ""
  | [.str s] => .ok s
  | .str s :: rest =>
    match pyJoin sep rest with
    | .error e => .error e
    | .ok r => .ok (s ++ sep ++ r)
  | _ => .error .typeError

/-- The `Seat`/`Address` loop body (daily_sync.py lines 266-302): for each
seat entry that is a dict, assemble `address_parts` from the `Address` node
and, when non-empty, overwrite `company_data['address']` with
`', '.join(filter(None, address_parts))`.  An exception stops the loop but
keeps the mutations already made. -/
def seatAddressLoop : List JValue → CompanyData → CompanyData × Option PyErr
  | [], cd => (cd, none)
  | entry :: rest, cd =>
    match entry with
    | .obj fields =>
      let parts : List JValue :=
        match lookupField "Address" fields with
        | some addrVal =>
          -- `if isinstance(addr, list) and addr: addr = addr[0]`
          let addr := match addrVal with
            | .arr (x :: _) => x
            | _ => addrVal
          match addr with
          | .obj addrFields =>
            addressComponent addrFields "Settlement" ++
            addressComponent addrFields "Street" ++
            addressComponent addrFields "StreetNumber" ++
            addressComponent addrFields "PostCode"
          | _ => []
        | none => []
      if parts.isEmpty then seatAddressLoop rest cd
      else
        match pyJoin ", " (parts.filter pyTruthy) with
        | .error e => (cd, some e)
        | .ok s => seatAddressLoop rest { cd with address := .str s }
    | _ => seatAddressLoop rest cd

/-- The full address phase: `if 'Seat' in subdeed: for seat_entry in
subdeed['Seat']: ...` (daily_sync.py lines 265-302). -/
def seatAddressPhase (subdeed : JValue) (cd : CompanyData) : CompanyData × Option PyErr :=
  match pyContainsStr "Seat" subdeed with
  | .error e => (cd, some e)
  | .ok false => (cd, none)
  | .ok true =>
    match pyGetItemStr "Seat" subdeed with
    | .error e => (cd, some e)
    | .ok seatVal =>
      match pyIter seatVal with
      | .error e => (cd, some e)
      | .ok entries => seatAddressLoop entries cd

/-- One contact value (daily_sync.py lines 314-335).  `v` is the truthy
`contacts[key]`; a truthy list is replaced by its first element; a truthy
value must be a string (`.strip()` raises `AttributeError` otherwise); the
stripped value must be non-empty; for `Phone` only, a raw value equal to the
redaction placeholder `'**********'` is dropped. -/
def contactString (checkSentinel : Bool) (v : JValue) : Except PyErr (Option String) :=
  let v1 := match v with
    | .arr (x :: _) => x
    | _ => v
  if pyTruthy v1 then
    match v1 with
    | .str p =>
      if pyStripStr p = "" then .ok none
      else if checkSentinel && p = "**********" then .ok none
      else .ok (some (pyStripStr p))
    | _ => .error .attributeError
  else .ok none

/-- One contact block of daily_sync.py lines 314-335 — the `Phone`, `EMail`
and `URL` blocks are the same code up to the key, the target field and the
presence of the sentinel comparison:
`if key in contacts and contacts[key]: v = contacts[key]; ...;
company_data[field] = v.strip()`. -/
def contactFieldStep (checkSentinel : Bool) (cfields : List (String × JValue))
    (key : String) (setField : CompanyData → String → CompanyData)
    (cd : CompanyData) : CompanyData × Option PyErr :=
  match lookupField key cfields with
  | some v =>
    if pyTruthy v then
      match contactString checkSentinel v with
      | .error e => (cd, some e)
      | .ok (some s) => (setField cd s, none)
      | .ok none => (cd, none)
    else (cd, none)
  | none => (cd, none)

/-- The `Seat`/`Contacts` loop (daily_sync.py lines 305-335): for each seat
entry that is a dict with a `Contacts` key, extract `Phone` (with the
redaction-sentinel filter), `EMail` and `URL` (without it) in that order;
an exception stops the loop but keeps the mutations already made. -/
def seatContactsLoop : List JValue → CompanyData → CompanyData × Option PyErr
  | [], cd => (cd, none)
  | entry :: rest, cd =>
    match entry with
    | .obj fields =>
      match lookupField "Contacts" fields with
      | some contactsVal =>
        -- `if isinstance(contacts, list) and contacts: contacts = contacts[0]`
        let contacts := match contactsVal with
          | .arr (x :: _) => x
          | _ => contactsVal
        match contacts with
        | .obj cfields =>
          match contactFieldStep true cfields "Phone"
              (fun cd' s => { cd' with phone := .str s }) cd with
          | (cd1, some e) => (cd1, some e)
          | (cd1, none) =>
            match contactFieldStep false cfields "EMail"
                (fun cd' s => { cd' with email := .str s }) cd1 with
            | (cd2, some e) => (cd2, some e)
            | (cd2, none) =>
              match contactFieldStep false cfields "URL"
                  (fun cd' s => { cd' with website := .str s }) cd2 with
              | (cd3, some e) => (cd3, some e)
              | (cd3, none) => seatContactsLoop rest cd3
        | _ => seatContactsLoop rest cd
      | none => seatContactsLoop rest cd
    | _ => seatContactsLoop rest cd

/-- The contacts phase: the second `if 'Seat' in subdeed:` block. -/
def seatContactsPhase (subdeed : JValue) (cd : CompanyData) : CompanyData × Option PyErr :=
  match pyContainsStr "Seat" subdeed with
  | .error e => (cd, some e)
  | .ok false => (cd, none)
  | .ok true =>
    match pyGetItemStr "Seat" subdeed with
    | .error e => (cd, some e)
    | .ok seatVal =>
      match pyIter seatVal with
      | .error e => (cd, some e)
      | .ok entries => seatContactsLoop entries cd

/-- `DailySyncWorker._extract_subdeed_data` (daily_sync.py lines 252-338):
the three phases run in sequence inside one `try`; on an exception the
mutations already performed are kept and the exception is swallowed. -/
def extractSubdeedData (subdeed : JValue) (cd : CompanyData) : CompanyData :=
  match managersPhase subdeed cd with
  | (cd1, some _) => cd1
  | (cd1, none) =>
    match seatAddressPhase subdeed cd1 with
    | (cd2, some _) => cd2
    | (cd2, none) => (seatContactsPhase subdeed cd2).1

/-- The body of the `try` in `DailySyncWorker._extract_company_data`
(daily_sync.py lines 217-246). -/
def extractCompanyDataE (deed : JValue) : Except PyErr (Option CompanyData) :=
  match pyContainsStr "$" deed with
  | .error e => .error e
  | .ok hasAttrs =>
    if !hasAttrs then .ok none
    else
      match pyGetItemStr "$" deed with
      | .error e => .error e
      | .ok deedInfo =>
        match pyGet "UIC" deedInfo with
        | .error e => .error e
        | .ok uid =>
          match pyGet "CompanyName" deedInfo with
          | .error e => .error e
          | .ok companyName =>
            match pyGet "LegalForm" deedInfo with
            | .error e => .error e
            | .ok legalForm =>
              if !optTruthy uid || !optTruthy companyName then .ok none
              else
                match pyGet "DeedStatus" deedInfo with
                | .error e => .error e
                | .ok deedStatus =>
                  let cd0 : CompanyData :=
                    { uid := uid.getD .null
                      name := companyName.getD .null
                      legal_form := legalForm.getD .null
                      status := deedStatus.getD .null
                      manager := .null
                      address := .null
                      phone := .null
                      email := .null
                      website := .null }
                  match pyContainsStr "SubDeed" deed with
                  | .error e => .error e
                  | .ok hasSub =>
                    if hasSub then
                      match pyGetItemStr "SubDeed" deed with
                      | .error e => .error e
                      | .ok subVal =>
                        match pyIter subVal with
                        | .error e => .error e
                        | .ok subs =>
                          .ok (some (subs.foldl
                            (fun c s => extractSubdeedData s c) cd0))
                    else .ok (some cd0)

/-- `DailySyncWorker._extract_company_data`: any exception inside the body is
caught, logged and turned into `None` (the deed contributes nothing). -/
def extractCompanyData (deed : JValue) : Option CompanyData :=
  match extractCompanyDataE deed with
  | .ok r => r
  | .error _ => none

/-- The innermost loop of `parse_company_changes`: `for deed in deeds['Deed']`,
appending `company_data` when `_extract_company_data` returned one (a returned
dict always has eight keys, hence is truthy). -/
def deedLoop : List JValue → List CompanyData → List CompanyData
  | [], acc => acc
  | deed :: rest, acc =>
    match extractCompanyData deed with
    | some cdata => deedLoop rest (acc ++ [cdata])
    | none => deedLoop rest acc

/-- `for deeds in body['Deeds']` with the `'Deed' not in deeds: continue`
guard.  An exception at this level escapes to the outer handler of
`parse_company_changes`. -/
def deedsGroupLoop : List JValue → List CompanyData → Except PyErr (List CompanyData)
  | [], acc => .ok acc
  | g :: rest, acc =>
    match pyContainsStr "Deed" g with
    | .error e => .error e
    | .ok has =>
      if !has then deedsGroupLoop rest acc
      else
        match pyGetItemStr "Deed" g with
        | .error e => .error e
        | .ok dv =>
          match pyIter dv with
          | .error e => .error e
          | .ok ds => deedsGroupLoop rest (deedLoop ds acc)

/-- `for body in message['Body']` with the `'Deeds' not in body` guard. -/
def bodyLoop : List JValue → List CompanyData → Except PyErr (List CompanyData)
  | [], acc => .ok acc
  | b :: rest, acc =>
    match pyContainsStr "Deeds" b with
    | .error e => .error e
    | .ok has =>
      if !has then bodyLoop rest acc
      else
        match pyGetItemStr "Deeds" b with
        | .error e => .error e
        | .ok dv =>
          match pyIter dv with
          | .error e => .error e
          | .ok gs =>
            match deedsGroupLoop gs acc with
            | .error e => .error e
            | .ok acc' => bodyLoop rest acc'

/-- `for message in daily_data['Message']` with the `'Body' not in message`
guard. -/
def messageLoop : List JValue → List CompanyData → Except PyErr (List CompanyData)
  | [], acc => .ok acc
  | m :: rest, acc =>
    match pyContainsStr "Body" m with
    | .error e => .error e
    | .ok has =>
      if !has then messageLoop rest acc
      else
        match pyGetItemStr "Body" m with
        | .error e => .error e
        | .ok bv =>
          match pyIter bv with
          | .error e => .error e
          | .ok bs =>
            match bodyLoop bs acc with
            | .error e => .error e
            | .ok acc' => messageLoop rest acc'

/-- The body of the `try` in `parse_company_changes` (daily_sync.py
lines 187-209). -/
def parseCompanyChangesE (dailyData : JValue) : Except PyErr (List CompanyData) :=
  match pyContainsStr "Message" dailyData with
  | .error e => .error e
  | .ok has =>
    if !has then .ok []
    else
      match pyGetItemStr "Message" dailyData with
      | .error e => .error e
      | .ok mv =>
        match pyIter mv with
        | .error e => .error e
        | .ok ms => messageLoop ms []

/-- `DailySyncWorker.parse_company_changes`: the whole body is wrapped in a
`try` whose handler logs and returns `[]`, so the function never throws. -/
def parseCompanyChanges (dailyData : JValue) : List CompanyData :=
  match parseCompanyChangesE dailyData with
  | .ok companies => companies
  | .error _ => []

/-! ## Merge path
(`DailySyncWorker._update_single_company` with `CompanyService` from
`app/services.py`)

The `companies` table is modelled as a list of rows; the company cache as an
association list from uid to the cached row.  `_update_single_company`
constructs its service as `CompanyService(db, None)` (daily_sync.py line 365),
i.e. with `cache=None`, which the model keeps as an `Option CacheMap`. -/

mutual

/-- Boolean equality on `JValue` (used for the `Company.uid == uid` row
filter; the uids that occur there are strings, for which this coincides with
Python equality). -/
def jvBEq : JValue → JValue → Bool
  | .null, .null => true
  | .bool a, .bool b => a == b
  | .num a, .num b => a == b
  | .str a, .str b => a == b
  | .arr a, .arr b => jvBEqList a b
  | .obj a, .obj b => jvBEqObj a b
  | _, _ => false

/-- Elementwise `jvBEq` on lists. -/
def jvBEqList : List JValue → List JValue → Bool
  | [], [] => true
  | x :: xs, y :: ys => jvBEq x y && jvBEqList xs ys
  | _, _ => false

/-- Fieldwise `jvBEq` on objects. -/
def jvBEqObj : List (String × JValue) → List (String × JValue) → Bool
  | [], [] => true
  | (k, x) :: xs, (k', y) :: ys => k == k' && jvBEq x y && jvBEqObj xs ys
  | _, _ => false

end

/-- A row of the `companies` table (`app/models.py`, class `Company`).
Nullable columns hold `JValue.null` when unset. -/
structure Company where
  uid : JValue
  name : JValue
  manager : JValue
  address : JValue
  legal_form : JValue
  status : JValue
  capital : JValue
  registration_date : JValue
  main_activity : JValue
  phone : JValue
  email : JValue
  website : JValue
deriving Repr

/-- The persistent store: the `companies` table. -/
abbrev Store := List Company

/-- The company cache keyed by uid (the cache key is `f"company:{uid}"`, an
injective image of the uid). -/
abbrev CacheMap := List (JValue × Company)

/-- The modelled exceptions of the merge path. -/
inductive MergeErr where
  | attributeError
  | companyNotFound
deriving Repr, DecidableEq

/-- `SELECT ... WHERE Company.uid == uid` followed by `scalar_one_or_none`
(at most one row matches: `uid` is the primary key). -/
def findCompany (st : Store) (uid : JValue) : Option Company :=
  List.find? (fun co => jvBEq co.uid uid) st

/-- `CompanyService.get_company` (services.py lines 24-76).  With
`self.cache = None` the very first statement `await self.cache.get(cache_key)`
raises `AttributeError` (it sits before the `try`).  With a cache, a hit
returns the cached row; a miss queries the store and either returns the row
(also writing it back to the cache, a side effect that no merge-path claim
observes and that is dropped here) or raises `CompanyNotFound`.  The function
therefore never produces `.ok none`. -/
def getCompanyModel (cache : Option CacheMap) (st : Store) (uid : JValue) :
    Except MergeErr (Option Company) :=
  match cache with
  | none => .error .attributeError
  | some cm =>
    match (List.find? (fun kv => jvBEq kv.1 uid) cm).map (·.2) with
    | some co => .ok (some co)
    | none =>
      match findCompany st uid with
      | some co => .ok (some co)
      | none => .error .companyNotFound

/-- The `enrichment_data` dictionary of `_update_single_company`
(daily_sync.py lines 369-380): the seven enrichment fields of the incoming
change, filtered by `if v is not None` (falsy non-`None` values are kept). -/
def buildEnrichment (c : CompanyData) : List (String × JValue) :=
  ([("name", c.name), ("manager", c.manager), ("address", c.address),
    ("legal_form", c.legal_form), ("phone", c.phone), ("email", c.email),
    ("website", c.website)]).filter fun kv =>
      match kv.2 with
      | .null => false
      | _ => true

/-- `UPDATE companies SET ... .values(**enrichment_data)`: set exactly the
columns named in the patch. -/
def applyPatch (co : Company) (patch : List (String × JValue)) : Company :=
  { co with
    name := (lookupField "name" patch).getD co.name
    manager := (lookupField "manager" patch).getD co.manager
    address := (lookupField "address" patch).getD co.address
    legal_form := (lookupField "legal_form" patch).getD co.legal_form
    phone := (lookupField "phone" patch).getD co.phone
    email := (lookupField "email" patch).getD co.email
    website := (lookupField "website" patch).getD co.website }

/-- `CompanyService.update_company_enrichment` (services.py lines 227-243):
look the company up (raising when absent), then apply the patch to the rows
with that uid. -/
def updateCompanyEnrichment (cache : Option CacheMap) (st : Store) (uid : JValue)
    (patch : List (String × JValue)) : Except MergeErr Store :=
  match getCompanyModel cache st uid with
  | .error e => .error e
  | .ok _ =>
    .ok (st.map fun co => if jvBEq co.uid uid then applyPatch co patch else co)

/-- The row inserted by `create_company` for a parsed change dict: the dict's
keys become columns, the remaining columns take their defaults (`NULL`). -/
def mkCompanyFromChange (c : CompanyData) : Company :=
  { uid := c.uid
    name := c.name
    manager := c.manager
    address := c.address
    legal_form := c.legal_form
    status := c.status
    capital := .null
    registration_date := .null
    main_activity := .null
    phone := c.phone
    email := c.email
    website := c.website }

/-- What one call to `_update_single_company` produced: the returned boolean,
the store afterwards, and the `company['is_new']` mutation if one happened. -/
structure MergeResult where
  returned : Bool
  store : Store
  isNewFlag : Option Bool

/-- The body of the `try` in `_update_single_company` (daily_sync.py
lines 364-392), parametrised by the cache the service was built with.  The
second component is the exception escaping the body, if any; the store in the
first component reflects writes committed before the exception. -/
def updateSingleCompanyBody (cache : Option CacheMap) (st : Store) (c : CompanyData) :
    MergeResult × Option MergeErr :=
  match getCompanyModel cache st c.uid with
  | .error e => (⟨false, st, none⟩, some e)
  | .ok existing =>
    match existing with
    | some _ =>
      -- `if existing_company:` — a returned CompanyResponse object is always truthy
      let enrichmentData := buildEnrichment c
      if !enrichmentData.isEmpty then
        -- `await company_service.enrich_company(...)`: `CompanyService` defines
        -- no method named `enrich_company`, so the attribute access raises
        (⟨false, st, none⟩, some .attributeError)
      else
        -- falls through to `return False` (line 392)
        (⟨false, st, none⟩, none)
    | none =>
      -- the `else` branch: reachable only if `get_company` returned a falsy
      -- value, which it never does (it raises `CompanyNotFound` instead)
      if pyTruthy c.name && pyTruthy c.uid then
        -- `create_company` commits the insert, then calls
        -- `self.cache.delete(...)` on the `None` cache and raises after the
        -- commit; `company['is_new'] = True` / `return True` are not reached
        (⟨false, st ++ [mkCompanyFromChange c], none⟩, some .attributeError)
      else
        (⟨false, st, none⟩, none)

/-- `DailySyncWorker._update_single_company`: the service is constructed as
`CompanyService(db, None)`, and the surrounding `except Exception` swallows
any exception and returns `False`. -/
def updateSingleCompany (st : Store) (c : CompanyData) : MergeResult :=
  match updateSingleCompanyBody none st c with
  | (r, some _) => ⟨false, r.store, r.isNewFlag⟩
  | (r, none) => r

/-- The outcome vocabulary of the spec's merge contract, as the sync loops
count it: a change is counted at all only when `_update_single_company`
returned `True` (`update_database`, daily_sync.py lines 346-351), attributed
to `created` when `company['is_new']` was set to `True` and to `updated`
otherwise (daily_sync.py lines 432-433). -/
inductive MergeOutcome where
  | created
  | updated
  | skipped
deriving Repr, DecidableEq

/-- Classify a merge result. -/
def mergeOutcome (r : MergeResult) : MergeOutcome :=
  if r.returned then
    if r.isNewFlag = some true then .created else .updated
  else .skipped

/-! ## Per-date sync state machine
(`SyncService` in `app/services.py`, orchestrator loops in `daily_sync.py`)

Calendar dates are day indexes (days since the Unix epoch; `"2025-08-14"` is
day `20314`), instants are seconds since the epoch, so day `d` covers
`[d * 86400, (d + 1) * 86400)` and `datetime.strptime(date).replace(hour=23,
minute=59, second=59)` is `d * 86400 + 86399`. -/

/-- A row of `sync_history` (`app/models.py`, class `SyncHistory`).  The count
columns are named `records_*`; no modelled code path ever succeeds in writing
them (see `updateSyncRecordE`). -/
structure SyncRecord where
  sync_type : String
  status : String
  sync_date : Nat
  started_at : Nat
  records_processed : Nat
  records_created : Nat
  records_updated : Nat
  error_message : Option String
deriving Repr, DecidableEq

/-- The `started_at` filter shared by `is_date_synced` and
`update_sync_record` (services.py lines 483-484 and 517-518):
`started_at >= date 00:00:00` and `started_at < date 23:59:59` — note the
exclusive bound at second 86399, not 86400. -/
def inDayWindow (d t : Nat) : Bool :=
  decide (d * 86400 ≤ t) && decide (t < d * 86400 + 86399)

/-- The `str(e)` argument the workers' exception handlers pass as
`error_message`.  The exact text never matters: no modelled path that
receives it ever stores it (see `updateSyncRecordE`). -/
def pyErrStr : PyErr → String
  | .typeError => "TypeError"
  | .keyError => "KeyError"
  | .attributeError => "AttributeError"

/-- `SyncService.is_date_synced` (services.py lines 476-490): select the
completed daily records in the day window, then line 487 runs
`return await result.scalar_one_or_none() is not None`.  `db.execute` on an
`AsyncSession` returns a plain synchronous `Result`, so `scalar_one_or_none`
is an ordinary call: two or more rows raise `MultipleResultsFound`, a
`SQLAlchemyError` the handler turns into `False`; zero or one rows return
`None` or the ORM row, and `await` on either raises `TypeError` — not a
`SQLAlchemyError`, so it propagates.  The method can never return `True`. -/
def isDateSyncedE (records : List SyncRecord) (d : Nat) : Except PyErr Bool :=
  if 2 ≤ (records.filter fun r =>
      r.sync_type == "daily" && r.status == "completed" &&
        inDayWindow d r.started_at).length
  then .ok false
  else .error .typeError

/-- `SyncService.create_sync_record` (services.py lines 492-508): append a
`running` row with `started_at = utcnow()`. -/
def createSyncRecord (records : List SyncRecord) (d : Nat) (stype : String)
    (now : Nat) : List SyncRecord :=
  records ++ [{ sync_type := stype, status := "running", sync_date := d,
                started_at := now, records_processed := 0, records_created := 0,
                records_updated := 0, error_message := none }]

/-- The keyword arguments the worker passes to `update_sync_record`.  Kept
purely to record what each call site asked for: the update that would consume
them is never reached (see `updateSyncRecordE`).  (The `companies_*` names do
not even exist as `SyncHistory` columns — the columns are `records_*` — so
the `UPDATE ... values(**kwargs)` would raise even if it were reached.) -/
structure SyncUpdateKwargs where
  status : Option String := none
  companies_processed : Option Nat := none
  companies_updated : Option Nat := none
  companies_created : Option Nat := none
  error_message : Option String := none
deriving Repr, DecidableEq

/-- `SyncService.update_sync_record` (services.py lines 510-535): select the
records with `sync_type == "daily"` (whatever the caller's sync type was) in
the day window, then line 521 runs
`sync_record = await result.scalar_one_or_none()` — the same spurious `await`
as in `is_date_synced`.  Two or more rows: `scalar_one_or_none` raises
`MultipleResultsFound`, a `SQLAlchemyError`, caught → rollback → `False`.
Zero or one rows: the call returns `None` or the row and `await` raises
`TypeError`, which the `except SQLAlchemyError` clause does not catch.  The
`if sync_record:` UPDATE is unreachable, so the table is never mutated and
the kwargs are ignored. -/
def updateSyncRecordE (records : List SyncRecord) (d : Nat)
    (_k : SyncUpdateKwargs) : Except PyErr Bool :=
  if 2 ≤ (records.filter fun r =>
      r.sync_type == "daily" && inDayWindow d r.started_at).length
  then .ok false
  else .error .typeError

/-- `update_database` (daily_sync.py lines 340-358): apply
`_update_single_company` to each change in order, threading the store and
recording each change's `is_new` mutation. -/
def updateDatabaseRun (st : Store) : List CompanyData → Store × List (Option Bool)
  | [] => (st, [])
  | c :: rest =>
    let r := updateSingleCompany st c
    let (st', flags) := updateDatabaseRun r.store rest
    (st', r.isNewFlag :: flags)

/-- The single known dataset resource (daily_sync.py lines 28-30): the date
`"2025-08-14"`, day index 20314. -/
def knownResourceDay : Nat := 20314

/-- `get_available_dates` returns only the known resource list. -/
def availableDates : List Nat := [knownResourceDay]

/-- What one orchestrator run produced: how many times `download_daily_data`
was invoked, how many times `_update_single_company` was invoked, the
resulting sync-history table and company store, and the exception, if any,
that escaped the run's main body and reached the function's outermost
`except Exception` handler (which logs it, attempts an `ActivityLog` entry,
and returns normally — callers never see it). -/
structure SyncRunResult where
  downloadCalls : Nat
  merges : Nat
  records : List SyncRecord
  store : Store
  raised : Option PyErr

/-- `DailySyncWorker.run_daily_sync` (daily_sync.py lines 398-487) for a given
day, with the network modelled by `net : day ↦ result of download_daily_data`
(`none` covers an unknown resource, non-200 responses, a missing download
link, and undecodable payloads alike).  The `is_date_synced` guard raising
(its `TypeError`, whenever fewer than two completed daily rows lie in the
window) aborts the run before any record is created; the `.ok true` skip
branch mirrors lines 409-411 but is dead, since `isDateSyncedE` never
produces it.  Each `update_sync_record` call raising lands in the inner
`except`, which attempts a `failed`-status update and then re-`raise`s
(lines 467-474). -/
def runDailySync (net : Nat → Option JValue) (records : List SyncRecord)
    (st : Store) (today now : Nat) : SyncRunResult :=
  match isDateSyncedE records today with
  | .error e => ⟨0, 0, records, st, some e⟩
  | .ok true =>
    -- "Already synced for {today}, skipping"
    ⟨0, 0, records, st, none⟩
  | .ok false =>
    let recs1 := createSyncRecord records today "daily" now
    if availableDates.contains today then
      match net today with
      | some payload =>
        let companies := parseCompanyChanges payload
        if !companies.isEmpty then
          let (st', flags) := updateDatabaseRun st companies
          match updateSyncRecordE recs1 today
              { status := some "completed"
                companies_processed := some companies.length
                companies_updated := some (flags.countP fun f => !(f == some true))
                companies_created := some (flags.countP fun f => f == some true) } with
          | .ok _ => ⟨1, companies.length, recs1, st', none⟩
          | .error e =>
            match updateSyncRecordE recs1 today
                { status := some "failed", error_message := some (pyErrStr e) } with
            | .ok _ => ⟨1, companies.length, recs1, st', some e⟩
            | .error e2 => ⟨1, companies.length, recs1, st', some e2⟩
        else
          match updateSyncRecordE recs1 today
              { status := some "completed", companies_processed := some 0 } with
          | .ok _ => ⟨1, 0, recs1, st, none⟩
          | .error e =>
            match updateSyncRecordE recs1 today
                { status := some "failed", error_message := some (pyErrStr e) } with
            | .ok _ => ⟨1, 0, recs1, st, some e⟩
            | .error e2 => ⟨1, 0, recs1, st, some e2⟩
      | none =>
        match updateSyncRecordE recs1 today
            { status := some "failed"
              error_message := some "Failed to download data" } with
        | .ok _ => ⟨1, 0, recs1, st, none⟩
        | .error e =>
          match updateSyncRecordE recs1 today
              { status := some "failed", error_message := some (pyErrStr e) } with
          | .ok _ => ⟨1, 0, recs1, st, some e⟩
          | .error e2 => ⟨1, 0, recs1, st, some e2⟩
    else
      match updateSyncRecordE recs1 today
          { status := some "completed", companies_processed := some 0 } with
      | .ok _ => ⟨0, 0, recs1, st, none⟩
      | .error e =>
        match updateSyncRecordE recs1 today
            { status := some "failed", error_message := some (pyErrStr e) } with
        | .ok _ => ⟨0, 0, recs1, st, some e⟩
        | .error e2 => ⟨0, 0, recs1, st, some e2⟩

/-- The `dates_to_sync` prologue of `DailySyncWorker.run_historical_sync`
(daily_sync.py lines 498-502): for `i` in `range(days_back)` keep the date
`today - i` days back unless `is_date_synced` reports it synced; the first
`is_date_synced` raise (its `TypeError`) propagates and aborts the whole
run. -/
def historicalDatesLoop (records : List SyncRecord) (todayDay : Nat) :
    List Nat → Except PyErr (List Nat)
  | [] => .ok []
  | i :: rest =>
    match isDateSyncedE records (todayDay - i) with
    | .error e => .error e
    | .ok synced =>
      match historicalDatesLoop records todayDay rest with
      | .error e => .error e
      | .ok tail => .ok (if synced then tail else (todayDay - i) :: tail)

/-- The per-date loop of `run_historical_sync` (daily_sync.py lines 508-562):
create a `historical` record, download, parse, merge, record the outcome
(`failed` with `"No data available"` on a `None` download).  A raise inside
the body lands in the per-date `except`, which attempts a `failed`-status
update and does *not* re-raise: if that update returns, the loop continues
with the next date; if it raises too, the exception propagates and kills the
remaining dates.  (`asyncio.sleep(1)` is a no-op here.) -/
def runHistoricalLoop (net : Nat → Option JValue) (now : Nat) :
    List Nat → List SyncRecord → Store → Nat → Nat → SyncRunResult
  | [], records, st, dl, mg => ⟨dl, mg, records, st, none⟩
  | d :: rest, records, st, dl, mg =>
    let recs1 := createSyncRecord records d "historical" now
    match net d with
    | some payload =>
      let companies := parseCompanyChanges payload
      if !companies.isEmpty then
        let (st', flags) := updateDatabaseRun st companies
        match updateSyncRecordE recs1 d
            { status := some "completed"
              companies_processed := some companies.length
              companies_updated := some (flags.countP fun f => !(f == some true))
              companies_created := some (flags.countP fun f => f == some true) } with
        | .ok _ =>
          runHistoricalLoop net now rest recs1 st' (dl + 1) (mg + companies.length)
        | .error e =>
          match updateSyncRecordE recs1 d
              { status := some "failed", error_message := some (pyErrStr e) } with
          | .ok _ =>
            runHistoricalLoop net now rest recs1 st' (dl + 1) (mg + companies.length)
          | .error e2 => ⟨dl + 1, mg + companies.length, recs1, st', some e2⟩
      else
        match updateSyncRecordE recs1 d
            { status := some "completed", companies_processed := some 0 } with
        | .ok _ => runHistoricalLoop net now rest recs1 st (dl + 1) mg
        | .error e =>
          match updateSyncRecordE recs1 d
              { status := some "failed", error_message := some (pyErrStr e) } with
          | .ok _ => runHistoricalLoop net now rest recs1 st (dl + 1) mg
          | .error e2 => ⟨dl + 1, mg, recs1, st, some e2⟩
    | none =>
      match updateSyncRecordE recs1 d
          { status := some "failed", error_message := some "No data available" } with
      | .ok _ => runHistoricalLoop net now rest recs1 st (dl + 1) mg
      | .error e =>
        match updateSyncRecordE recs1 d
            { status := some "failed", error_message := some (pyErrStr e) } with
        | .ok _ => runHistoricalLoop net now rest recs1 st (dl + 1) mg
        | .error e2 => ⟨dl + 1, mg, recs1, st, some e2⟩

/-- `DailySyncWorker.run_historical_sync` (daily_sync.py lines 489-585):
the `dates_to_sync` prologue, the empty-list early return, then the per-date
loop.  A prologue raise reaches the outer handler before any record is
created or any download attempted. -/
def runHistoricalSync (net : Nat → Option JValue) (records : List SyncRecord)
    (st : Store) (todayDay now daysBack : Nat) : SyncRunResult :=
  match historicalDatesLoop records todayDay (List.range daysBack) with
  | .error e => ⟨0, 0, records, st, some e⟩
  | .ok [] =>
    -- "No historical dates need syncing"
    ⟨0, 0, records, st, none⟩
  | .ok dates => runHistoricalLoop net now dates records st 0 0

/-- `DailySyncWorker.run_sync_for_date` (daily_sync.py lines 587-656): a
`specific` record, no idempotency guard, and an inner `except` that attempts
a `failed`-status update and does *not* re-raise — the function returns
normally if that update returns, and only its own raise reaches the outer
handler. -/
def runSyncForDate (net : Nat → Option JValue) (records : List SyncRecord)
    (st : Store) (d now : Nat) : SyncRunResult :=
  let recs1 := createSyncRecord records d "specific" now
  match net d with
  | some payload =>
    let companies := parseCompanyChanges payload
    if !companies.isEmpty then
      let (st', flags) := updateDatabaseRun st companies
      match updateSyncRecordE recs1 d
          { status := some "completed"
            companies_processed := some companies.length
            companies_updated := some (flags.countP fun f => !(f == some true))
            companies_created := some (flags.countP fun f => f == some true) } with
      | .ok _ => ⟨1, companies.length, recs1, st', none⟩
      | .error e =>
        match updateSyncRecordE recs1 d
            { status := some "failed", error_message := some (pyErrStr e) } with
        | .ok _ => ⟨1, companies.length, recs1, st', none⟩
        | .error e2 => ⟨1, companies.length, recs1, st', some e2⟩
    else
      match updateSyncRecordE recs1 d
          { status := some "completed", companies_processed := some 0 } with
      | .ok _ => ⟨1, 0, recs1, st, none⟩
      | .error e =>
        match updateSyncRecordE recs1 d
            { status := some "failed", error_message := some (pyErrStr e) } with
        | .ok _ => ⟨1, 0, recs1, st, none⟩
        | .error e2 => ⟨1, 0, recs1, st, some e2⟩
  | none =>
    match updateSyncRecordE recs1 d
        { status := some "failed", error_message := some "No data available" } with
    | .ok _ => ⟨1, 0, recs1, st, none⟩
    | .error e =>
      match updateSyncRecordE recs1 d
          { status := some "failed", error_message := some (pyErrStr e) } with
      | .ok _ => ⟨1, 0, recs1, st, none⟩
      | .error e2 => ⟨1, 0, recs1, st, some e2⟩

/-! ## Two-tier cache (`app/cache.py`, class `CacheService`)

The primary (Redis) tier is external; each operation is parametrised by what
the primary tier did on that call: `absent` (`self.redis_client` is `None`),
`ok` (the call returned, with its decoded result), or `err` (the call or the
deserialisation raised).  The fallback tier is the pair of in-memory dicts
`_fallback_cache` / `_fallback_timestamps`, modelled as association lists. -/

/-- Outcome of the primary-tier attempt for one call. -/
inductive Primary (α : Type) where
  | absent
  | ok (a : α)
  | err
deriving Repr, DecidableEq

/-- The two in-memory dictionaries of the fallback tier. -/
structure FallbackState where
  cache : List (String × JValue)
  timestamps : List (String × Nat)
deriving Repr

/-- Python `d[k] = v`: update in place if present, else append. -/
def assocSet {α : Type} (l : List (String × α)) (k : String) (v : α) :
    List (String × α) :=
  if l.any (fun kv => kv.1 == k) then
    l.map fun kv => if kv.1 == k then (kv.1, v) else kv
  else l ++ [(k, v)]

/-- Python `d.get(k)` / `k in d`. -/
def assocLookup {α : Type} (l : List (String × α)) (k : String) : Option α :=
  match l with
  | [] => none
  | p :: rest => if p.1 == k then some p.2 else assocLookup rest k

/-- Python `del d[k]` (the caller is responsible for the `KeyError` case). -/
def assocDelete {α : Type} (l : List (String × α)) (k : String) :
    List (String × α) :=
  l.filter fun kv => kv.1 != k

/-- `CacheService._get_fallback` (cache.py lines 131-140): a hit within TTL
returns the value; an expired hit deletes the entry from both dicts — where
`del self._fallback_timestamps[key]` raises `KeyError` when the key has no
timestamp (possible for entries created by `increment`) — and a miss returns
`None`.  `ttlHours` is the configured `CACHE_TTL`. -/
def getFallbackE (ttlHours now : Nat) (key : String) (st : FallbackState) :
    (Option JValue × FallbackState) × Option PyErr :=
  match assocLookup st.cache key with
  | some v =>
    let timestamp := (assocLookup st.timestamps key).getD 0
    if now - timestamp < ttlHours * 3600 then ((some v, st), none)
    else
      let st1 : FallbackState := ⟨assocDelete st.cache key, st.timestamps⟩
      match assocLookup st.timestamps key with
      | some _ => ((none, ⟨st1.cache, assocDelete st1.timestamps key⟩), none)
      | none => ((none, st1), some .keyError)
  | none => ((none, st), none)

/-- The `for key in expired_keys: del ...; del ...` loop of
`_cleanup_fallback_cache`; a missing key raises `KeyError` mid-loop, keeping
the deletions already done. -/
def cleanupLoop : List String → FallbackState → FallbackState × Option PyErr
  | [], st => (st, none)
  | k :: rest, st =>
    match assocLookup st.cache k with
    | none => (st, some .keyError)
    | some _ =>
      let st1 : FallbackState := ⟨assocDelete st.cache k, st.timestamps⟩
      match assocLookup st1.timestamps k with
      | none => (st1, some .keyError)
      | some _ => cleanupLoop rest ⟨st1.cache, assocDelete st1.timestamps k⟩

/-- `CacheService._cleanup_fallback_cache` (cache.py lines 167-180): collect
the keys whose timestamp is strictly older than the TTL, then delete them
from both dicts. -/
def cleanupFallbackE (ttlHours now : Nat) (st : FallbackState) :
    FallbackState × Option PyErr :=
  let expiredKeys :=
    (st.timestamps.filter fun kv => decide (now - kv.2 > ttlHours * 3600)).map (·.1)
  cleanupLoop expiredKeys st

/-- The two dictionary writes at the top of `_set_fallback`:
`self._fallback_cache[key] = value; self._fallback_timestamps[key] = time()`. -/
def fbInsert (st : FallbackState) (key : String) (v : JValue) (now : Nat) :
    FallbackState :=
  ⟨assocSet st.cache key v, assocSet st.timestamps key now⟩

/-- `CacheService._set_fallback` (cache.py lines 142-154): write value and
timestamp, and when the cache now holds more than 1000 entries run the
cleanup sweep; the surrounding handler turns an exception into `False`,
keeping the mutations made so far.  The `ttl` argument of `set` is accepted
and ignored — expiry uses the global `CACHE_TTL` only. -/
def setFallback (ttlHours now : Nat) (key : String) (v : JValue)
    (st : FallbackState) : Bool × FallbackState :=
  let st1 : FallbackState := fbInsert st key v now
  if st1.cache.length > 1000 then
    match cleanupFallbackE ttlHours now st1 with
    | (st2, none) => (true, st2)
    | (st2, some _) => (false, st2)
  else (true, st1)

/-- `CacheService._delete_fallback` (cache.py lines 156-165): delete from
both dicts when present; a `KeyError` from the second `del` (no timestamp) is
caught and turned into `False`. -/
def deleteFallback (key : String) (st : FallbackState) : Bool × FallbackState :=
  match assocLookup st.cache key with
  | some _ =>
    let st1 : FallbackState := ⟨assocDelete st.cache key, st.timestamps⟩
    match assocLookup st1.timestamps key with
    | some _ => (true, ⟨st1.cache, assocDelete st1.timestamps key⟩)
    | none => (false, st1)
  | none => (true, st)

/-- The fallback branch of `increment` (cache.py lines 98-103): read the
current value (default `0`), and when it is an `int`/`float` (in Python a
`bool` is an `int`) store and return `current + amount`, else return `None`.
No timestamp is written. -/
def incrementFallback (key : String) (amount : Int) (st : FallbackState) :
    Option Int × FallbackState :=
  let current := (assocLookup st.cache key).getD (.num 0)
  match current with
  | .num n => (some (n + amount), ⟨assocSet st.cache key (.num (n + amount)), st.timestamps⟩)
  | .bool b =>
    let n : Int := if b then 1 else 0
    (some (n + amount), ⟨assocSet st.cache key (.num (n + amount)), st.timestamps⟩)
  | _ => (none, st)

/-- `CacheService.get` (cache.py lines 41-54).  With a working primary, a
truthy reply is decoded and returned and a falsy one falls through to
`return None`.  With no primary the fallback is read inside the `try`, so a
fallback exception is caught and the handler reads the fallback again; on a
primary error the handler reads the fallback once, and an exception from that
read propagates to the caller. -/
def cacheGet (p : Primary (Option JValue)) (ttlHours now : Nat) (key : String)
    (st : FallbackState) : Except PyErr (Option JValue × FallbackState) :=
  match p with
  | .ok (some v) => .ok (some v, st)
  | .ok none => .ok (none, st)
  | .absent =>
    match getFallbackE ttlHours now key st with
    | (res, none) => .ok res
    | ((_, st1), some _) =>
      match getFallbackE ttlHours now key st1 with
      | (res, none) => .ok res
      | (_, some e) => .error e
  | .err =>
    match getFallbackE ttlHours now key st with
    | (res, none) => .ok res
    | (_, some e) => .error e

/-- `CacheService.set` (cache.py lines 56-67): primary success returns
`True`; with no primary or on a primary error, write to the fallback. -/
def cacheSet (p : Primary Unit) (ttlHours now : Nat) (key : String) (v : JValue)
    (st : FallbackState) : Bool × FallbackState :=
  match p with
  | .ok _ => (true, st)
  | .absent => setFallback ttlHours now key v st
  | .err => setFallback ttlHours now key v st

/-- `CacheService.delete` (cache.py lines 69-79). -/
def cacheDelete (p : Primary Unit) (key : String) (st : FallbackState) :
    Bool × FallbackState :=
  match p with
  | .ok _ => (true, st)
  | .absent => deleteFallback key st
  | .err => deleteFallback key st

/-- `CacheService.exists` (cache.py lines 81-90): both the no-primary branch
and the error handler test raw key membership in `_fallback_cache` (no TTL
check). -/
def cacheExists (p : Primary Bool) (key : String) (st : FallbackState) : Bool :=
  match p with
  | .ok b => b
  | .absent => st.cache.any fun kv => kv.1 == key
  | .err => st.cache.any fun kv => kv.1 == key

/-- `CacheService.increment` (cache.py lines 92-106): primary success returns
the primary's counter; with no primary the fallback branch runs; on a primary
error the handler returns `None` without consulting the fallback tier. -/
def cacheIncrement (p : Primary Int) (key : String) (amount : Int)
    (st : FallbackState) : Option Int × FallbackState :=
  match p with
  | .ok n => (some n, st)
  | .absent => incrementFallback key amount st
  | .err => (none, st)

/-- `CacheService.health_check` (cache.py lines 119-129): `True` when the
primary ping succeeds or there is no primary; `False` when the ping raises. -/
def cacheHealthCheck (p : Primary Unit) : Bool :=
  match p with
  | .ok _ => true
  | .absent => true
  | .err => false

/-! ## Registry fetch (`app/enrichment.py`, `fetch_registry_data`) -/

/-- What happened on the wire for one `GET {REGISTRY_API_URL}/{uid}`:
a response with its status code and the result of `response.json()`
(`none` when the body does not decode), a timeout, or any other exception. -/
inductive RegistryOutcome where
  | response (statusCode : Nat) (decoded : Option JValue)
  | timeout
  | exception
deriving Repr

/-- `fetch_registry_data` (enrichment.py lines 20-40): return the decoded
document on HTTP 200 (a `JSONDecodeError` there is caught by the generic
handler), `None` on 404, `None` on any other status, `None` on timeout,
`None` on any other exception. -/
def fetchRegistryData : RegistryOutcome → Option JValue
  | .response statusCode decoded =>
    if statusCode == 200 then decoded
    else if statusCode == 404 then none
    else none
  | .timeout => none
  | .exception => none

/-- The behaviour claim C10 ascribes to `fetch_registry_data`, stated from
the claim's words: the decoded JSON document exactly when the registry
responded HTTP 200 (and the body decoded), `None` in every other case. -/
def fetchRegistrySpec (r : RegistryOutcome) : Option JValue :=
  match r with
  | .response statusCode decoded => if statusCode = 200 then decoded else none
  | .timeout => none
  | .exception => none

/-! ## Theorems -/

/-- Shared fact about the merge path: because `_update_single_company`
constructs its `CompanyService` with `cache=None`, `get_company` raises
`AttributeError` on its very first statement on every call, the broad handler
swallows it and returns `False` — so the merge path never reads or writes a
company row and never sets `company['is_new']`. -/
theorem updateSingleCompany_const (st : Store) (c : CompanyData) :
    updateSingleCompany st c = ⟨false, st, none⟩ := rfl

/-- With a working cache the create branch is still unreachable: when the uid
is absent from cache and store, `get_company` raises `CompanyNotFound`, which
the body propagates — `.ok none` is never produced. -/
theorem updateSingleCompanyBody_absent (cm : CacheMap) (st : Store) (c : CompanyData)
    (hcm : (List.find? (fun kv => jvBEq kv.1 c.uid) cm) = none)
    (hst : findCompany st c.uid = none) :
    updateSingleCompanyBody (some cm) st c = (⟨false, st, none⟩, some .companyNotFound) := by
  simp [updateSingleCompanyBody, getCompanyModel, hcm, hst]

/-- C1: the claim says a change carrying an identifier and a name whose
identifier is absent from the store is inserted with outcome `Created`.  The
code refutes this: `_update_single_company` is a constant no-op — its
`CompanyService(db, None)` makes `get_company` raise `AttributeError` before
any lookup (and even with a cache, an absent uid raises `CompanyNotFound`
rather than returning a falsy value, so the create branch is dead code) —
hence no row is ever inserted, `company['is_new']` is never set, and the
outcome as counted by the sync loops is `skipped`, never `created`. -/
theorem merge_absent_uid_never_created (st : Store) (c : CompanyData) :
    updateSingleCompany st c = ⟨false, st, none⟩ ∧
    mergeOutcome (updateSingleCompany st c) = MergeOutcome.skipped := by
  refine ⟨updateSingleCompany_const st c, ?_⟩
  rw [updateSingleCompany_const]
  rfl

/-- C2: applying the identical change a second time through the merge path
yields the `Skipped` outcome and leaves the store exactly as it was after the
first application.  (This holds degenerately: every application of the merge
path is a no-op, see `updateSingleCompany_const`.) -/
theorem merge_second_application_skipped (st : Store) (c : CompanyData) :
    mergeOutcome (updateSingleCompany (updateSingleCompany st c).store c)
      = MergeOutcome.skipped ∧
    (updateSingleCompany (updateSingleCompany st c).store c).store
      = (updateSingleCompany st c).store := by
  rw [updateSingleCompany_const st c]
  rw [updateSingleCompany_const]
  exact ⟨rfl, rfl⟩

/-- The stored company of claim C5's example: `phone="555"`, no email. -/
def phoneCompanyRow : Company :=
  { uid := .str "1", name := .str "Acme", manager := .null, address := .null
    legal_form := .null, status := .null, capital := .null
    registration_date := .null, main_activity := .null
    phone := .str "555", email := .null, website := .null }

/-- The store holding exactly claim C5's example company. -/
def phoneStore : Store := [phoneCompanyRow]

/-- The incoming change of claim C5's example: `phone=null, email="a@b.com"`. -/
def emailChange : CompanyData :=
  { uid := .str "1", name := .null, legal_form := .null, status := .null
    manager := .null, address := .null, phone := .null
    email := .str "a@b.com", website := .null }

/-- C5: the claim's non-destructive-patch property.  Its filter half is real:
`enrichment_data` keeps exactly the non-`None` fields (here only `email`),
so a `null` in the change can never overwrite a stored value, and
`update_company_enrichment` would produce `phone="555", email="a@b.com"`.
But the claim's example fails on the code: the merge path aborts on the
`None`-cache `AttributeError` (and the `enrich_company` call would not exist
anyway), so the patch is never applied — the stored entity keeps
`email=null` instead of gaining `"a@b.com"`. -/
theorem patch_filters_nulls_but_is_never_applied :
    buildEnrichment emailChange = [("email", JValue.str "a@b.com")] ∧
    applyPatch phoneCompanyRow (buildEnrichment emailChange)
      = { phoneCompanyRow with email := JValue.str "a@b.com" } ∧
    updateSingleCompany phoneStore emailChange = ⟨false, phoneStore, none⟩ ∧
    (updateSingleCompany phoneStore emailChange).store.map (·.email)
      = [JValue.null] := by
  exact ⟨rfl, rfl, rfl, rfl⟩

/-- C10: `fetch_registry_data` never raises and returns the decoded document
exactly on a decodable HTTP-200 response and `None` in every other case
(404, other statuses, timeout, any exception); in particular a 404 (absent
entity) and an exception (external failure) are indistinguishable to the
caller. -/
theorem fetch_registry_matches_spec :
    (∀ r : RegistryOutcome, fetchRegistryData r = fetchRegistrySpec r) ∧
    fetchRegistryData (.response 404 none) = fetchRegistryData .exception := by
  refine ⟨?_, rfl⟩
  intro r
  cases r with
  | response sc dec =>
    by_cases h : sc = 200
    · subst h; rfl
    · by_cases h4 : sc = 404
      · subst h4; rfl
      · simp [fetchRegistryData, fetchRegistrySpec, h, h4]
  | timeout => rfl
  | exception => rfl

/-- A fallback state holding the counter `k = 5` (with a fresh timestamp). -/
def counterState : FallbackState := ⟨[("k", .num 5)], [("k", 0)]⟩

/-- C8 counterexample: on a primary-tier error, `increment` returns `None`
without consulting the fallback tier — while the fallback tier's own
increment would return `6` — and `health_check` reports `False` while the
fallback branch reports `True`.  The caller therefore does observe the
distinction, refuting the claim for these two operations. -/
theorem increment_and_health_do_not_degrade :
    (cacheIncrement .err "k" 1 counterState).1 = none ∧
    (cacheIncrement .absent "k" 1 counterState).1 = some 6 ∧
    (cacheIncrement .err "k" 1 counterState).1
      ≠ (cacheIncrement .absent "k" 1 counterState).1 ∧
    cacheHealthCheck .err = false ∧
    cacheHealthCheck .absent = true := by
  refine ⟨rfl, rfl, ?_, rfl, rfl⟩
  decide

/-- C8 amended: on a primary-tier error, `get`, `set`, `delete` and `exists`
do degrade to the fallback tier (for `get`, whenever the fallback read itself
does not raise, the error branch returns exactly the no-primary fallback
result); `increment` instead returns `None` without consulting the fallback,
and `health_check` reports `False`. -/
theorem cache_primary_error_behaviour (ttlHours now : Nat) (key : String)
    (v : JValue) (amount : Int) (st : FallbackState)
    (hfb : (getFallbackE ttlHours now key st).2 = none) :
    cacheGet .err ttlHours now key st = .ok (getFallbackE ttlHours now key st).1 ∧
    cacheGet .err ttlHours now key st = cacheGet .absent ttlHours now key st ∧
    cacheSet .err ttlHours now key v st = setFallback ttlHours now key v st ∧
    cacheDelete .err key st = deleteFallback key st ∧
    cacheExists .err key st = (st.cache.any fun kv => kv.1 == key) ∧
    cacheIncrement .err key amount st = (none, st) ∧
    cacheHealthCheck .err = false := by
  refine ⟨?_, ?_, rfl, rfl, rfl, rfl, rfl⟩
  · simp only [cacheGet]
    rcases hg : getFallbackE ttlHours now key st with ⟨res, err⟩
    rw [hg] at hfb
    simp_all
  · simp only [cacheGet]
    rcases hg : getFallbackE ttlHours now key st with ⟨res, err⟩
    rw [hg] at hfb
    simp_all

/-- Witness for `cache_primary_error_behaviour` at a concrete input: the
one-entry counter state, where the fallback read raises nothing. -/
theorem cache_primary_error_behaviour_witness :
    cacheGet .err 600 0 "k" counterState = .ok (some (.num 5), counterState) ∧
    cacheIncrement .err "k" 1 counterState = (none, counterState) := by
  have h := cache_primary_error_behaviour 600 0 "k" JValue.null 1 counterState rfl
  exact ⟨h.1, h.2.2.2.2.2.1⟩

/-- A subdeed carrying one `Seat`/`Contacts` block with the given `Phone`,
`EMail` and `URL` values (the change-feed shape of daily_sync.py
lines 305-335). -/
def mkContactsSubdeed (phone email url : JValue) : JValue :=
  .obj [("Seat", .arr [.obj [("Contacts",
    .arr [.obj [("Phone", phone), ("EMail", email), ("URL", url)]])]])]

/-- An all-`null` `company_data`, as built for a deed with no attributes of
interest. -/
def blankCompanyData : CompanyData :=
  { uid := .null, name := .null, legal_form := .null, status := .null
    manager := .null, address := .null, phone := .null, email := .null
    website := .null }

/-- C7 counterexample: the claim extends the redaction-sentinel rule to all
three contact fields, but the code checks only `Phone`: an `EMail` or `URL`
equal to `'**********'` is stored verbatim as data, not mapped to `null`. -/
theorem email_website_sentinel_stored :
    (extractSubdeedData
        (mkContactsSubdeed .null (.str "**********") (.str "**********"))
        blankCompanyData).email = JValue.str "**********" ∧
    (extractSubdeedData
        (mkContactsSubdeed .null (.str "**********") (.str "**********"))
        blankCompanyData).website = JValue.str "**********" ∧
    JValue.str "**********" ≠ JValue.null := by
  refine ⟨rfl, rfl, ?_⟩
  intro h
  exact JValue.noConfusion h

/-- On the contacts-only subdeed shape, `_extract_subdeed_data` reduces to
the contacts loop over the single seat entry (the managers and address
phases find nothing to do). -/
theorem extractSubdeedData_contacts (ph em ur : JValue) (cd : CompanyData) :
    extractSubdeedData (mkContactsSubdeed ph em ur) cd =
      (seatContactsLoop
        [.obj [("Contacts", .arr [.obj [("Phone", ph), ("EMail", em), ("URL", ur)]])]]
        cd).1 := rfl

/-- A contact block leaves every `company_data` field untouched that its
`setField` leaves untouched. -/
theorem contactFieldStep_preserves (checkSentinel : Bool)
    (cfields : List (String × JValue)) (key : String)
    (setField : CompanyData → String → CompanyData)
    (f : CompanyData → JValue)
    (hset : ∀ cd' s, f (setField cd' s) = f cd') (cd : CompanyData) :
    f (contactFieldStep checkSentinel cfields key setField cd).1 = f cd := by
  unfold contactFieldStep
  cases hl : lookupField key cfields with
  | none => rfl
  | some v =>
    cases ht : pyTruthy v with
    | false => simp [ht]
    | true =>
      simp only [ht, if_true]
      cases hc : contactString checkSentinel v with
      | error e => rfl
      | ok o =>
        cases o with
        | none => rfl
        | some s => simp [hset]

/-- The single-seat contacts loop, written as the chain of its three contact
blocks. -/
theorem seatContactsLoop_single (cfields : List (String × JValue)) (cd : CompanyData) :
    seatContactsLoop [.obj [("Contacts", .arr [.obj cfields])]] cd =
      match contactFieldStep true cfields "Phone"
          (fun cd' s => { cd' with phone := .str s }) cd with
      | (cd1, some e) => (cd1, some e)
      | (cd1, none) =>
        match contactFieldStep false cfields "EMail"
            (fun cd' s => { cd' with email := .str s }) cd1 with
        | (cd2, some e) => (cd2, some e)
        | (cd2, none) =>
          match contactFieldStep false cfields "URL"
              (fun cd' s => { cd' with website := .str s }) cd2 with
          | (cd3, some e) => (cd3, some e)
          | (cd3, none) => (cd3, none) := rfl

/-- C7 amended: only the `Phone` contact value is compared against the
redaction placeholder `'**********'`: a sentinel phone leaves
`company_data['phone']` untouched (so a previously `null` phone stays
`null`), whatever the other contact values are; an `EMail` value — the
sentinel included — is stored verbatim once it is truthy with a non-empty
strip (and `URL` behaves like `EMail`). -/
theorem phone_sentinel_dropped (cd : CompanyData) (email url : JValue) :
    (extractSubdeedData (mkContactsSubdeed (.str "**********") email url) cd).phone
      = cd.phone ∧
    ∀ s : String, pyStripStr s ≠ "" →
      (extractSubdeedData (mkContactsSubdeed .null (.str s) url) cd).email
        = JValue.str (pyStripStr s) := by
  constructor
  · rw [extractSubdeedData_contacts, seatContactsLoop_single]
    have hphone : contactFieldStep true
        [("Phone", JValue.str "**********"), ("EMail", email), ("URL", url)] "Phone"
        (fun cd' s => { cd' with phone := .str s }) cd = (cd, none) := rfl
    rw [hphone]
    dsimp only
    rcases he : contactFieldStep false
        [("Phone", JValue.str "**********"), ("EMail", email), ("URL", url)] "EMail"
        (fun cd' s => { cd' with email := .str s }) cd with ⟨cd2, e2⟩
    have h2 : cd2.phone = cd.phone := by
      have hp := contactFieldStep_preserves false
        [("Phone", JValue.str "**********"), ("EMail", email), ("URL", url)] "EMail"
        (fun cd' s => { cd' with email := .str s }) (·.phone) (fun _ _ => rfl) cd
      rw [he] at hp
      exact hp
    cases e2 with
    | some e => exact h2
    | none =>
      dsimp only
      rcases hu : contactFieldStep false
          [("Phone", JValue.str "**********"), ("EMail", email), ("URL", url)] "URL"
          (fun cd' s => { cd' with website := .str s }) cd2 with ⟨cd3, e3⟩
      have h3 : cd3.phone = cd2.phone := by
        have hp := contactFieldStep_preserves false
          [("Phone", JValue.str "**********"), ("EMail", email), ("URL", url)] "URL"
          (fun cd' s => { cd' with website := .str s }) (·.phone) (fun _ _ => rfl) cd2
        rw [hu] at hp
        exact hp
      cases e3 with
      | some e => exact h3.trans h2
      | none => exact h3.trans h2
  · intro s hs
    have hs0 : s ≠ "" := by
      intro h
      rw [h] at hs
      exact hs rfl
    rw [extractSubdeedData_contacts, seatContactsLoop_single]
    have hphone : contactFieldStep true
        [("Phone", JValue.null), ("EMail", JValue.str s), ("URL", url)] "Phone"
        (fun cd' s' => { cd' with phone := .str s' }) cd = (cd, none) := rfl
    rw [hphone]
    dsimp only
    have hemail : contactFieldStep false
        [("Phone", JValue.null), ("EMail", JValue.str s), ("URL", url)] "EMail"
        (fun cd' s' => { cd' with email := .str s' }) cd
        = ({ cd with email := .str (pyStripStr s) }, none) := by
      have htr : pyTruthy (JValue.str s) = true := by
        simp [pyTruthy, hs0]
      simp only [contactFieldStep, lookupField, reduceIte, htr, if_true,
        contactString, htr]
      simp [htr, hs]
    rw [hemail]
    dsimp only
    rcases hu : contactFieldStep false
        [("Phone", JValue.null), ("EMail", JValue.str s), ("URL", url)] "URL"
        (fun cd' s' => { cd' with website := .str s' })
        { cd with email := .str (pyStripStr s) } with ⟨cd3, e3⟩
    have h3 : cd3.email = JValue.str (pyStripStr s) := by
      have hp := contactFieldStep_preserves false
        [("Phone", JValue.null), ("EMail", JValue.str s), ("URL", url)] "URL"
        (fun cd' s' => { cd' with website := .str s' }) (·.email) (fun _ _ => rfl)
        { cd with email := .str (pyStripStr s) }
      rw [hu] at hp
      exact hp
    cases e3 with
    | some e => exact h3
    | none => exact h3

/-- Witness for `phone_sentinel_dropped`: on a blank `company_data`, a
sentinel phone stays `null` while a sentinel email is stored as data. -/
theorem phone_sentinel_dropped_witness :
    (extractSubdeedData (mkContactsSubdeed (.str "**********") (.str "a@b.com") .null)
        blankCompanyData).phone = JValue.null ∧
    (extractSubdeedData (mkContactsSubdeed .null (.str "**********") .null)
        blankCompanyData).email = JValue.str "**********" := by
  refine ⟨(phone_sentinel_dropped blankCompanyData (.str "a@b.com") .null).1, ?_⟩
  have h2 := (phone_sentinel_dropped blankCompanyData (.str "a@b.com") .null).2
    "**********" (by decide)
  simpa using h2

/-- A network in which `download_daily_data` finds no data for any date. -/
def noDataNet : Nat → Option JValue := fun _ => none

/-- A completed daily record for `2025-08-14` started at `00:00:00`. -/
def goodCompletedRecord : SyncRecord :=
  { sync_type := "daily", status := "completed", sync_date := knownResourceDay
    started_at := knownResourceDay * 86400
    records_processed := 0, records_created := 0, records_updated := 0
    error_message := none }

/-- A second completed daily record for `2025-08-14`, started one minute into
the day. -/
def goodCompletedRecord2 : SyncRecord :=
  { goodCompletedRecord with started_at := knownResourceDay * 86400 + 60 }

/-- C3: a second daily run never observes a completed record and skips.
First, `is_date_synced` can never report a date synced: it returns `False`
when two or more completed daily rows lie in the window and raises
`TypeError` (the spurious `await` of services.py line 487) otherwise, so the
"Already synced, skipping" branch is dead code.  Concretely, with exactly the
one completed daily record the claim posits, the second run aborts at the
guard with the uncaught `TypeError` — zero fetches by crash, not by
skipping, and its outer handler swallows the error; with two completed daily
records the guard answers `False` and the run proceeds to create a fresh
record and re-download the date. -/
theorem daily_guard_crashes_instead_of_skipping :
    (∀ (records : List SyncRecord) (d : Nat),
        isDateSyncedE records d = Except.ok false ∨
        isDateSyncedE records d = Except.error PyErr.typeError) ∧
    runDailySync noDataNet [goodCompletedRecord] [] knownResourceDay
        (knownResourceDay * 86400 + 7200)
      = ⟨0, 0, [goodCompletedRecord], [], some PyErr.typeError⟩ ∧
    runDailySync noDataNet [goodCompletedRecord, goodCompletedRecord2] []
        knownResourceDay (knownResourceDay * 86400 + 7200)
      = ⟨1, 0,
          createSyncRecord [goodCompletedRecord, goodCompletedRecord2]
            knownResourceDay "daily" (knownResourceDay * 86400 + 7200),
          [], none⟩ := by
  constructor
  · intro records d
    unfold isDateSyncedE
    split
    · exact Or.inl rfl
    · exact Or.inr rfl
  · exact ⟨rfl, rfl⟩

/-- C4 counterexample: a date with no data run through the specific path ends
with its SyncRecord still `running` — not `completed` with `processed=0` —
and the run's inner `failed`-status update raises the `TypeError` of
services.py line 521 (swallowed by the outer handler); the historical path
never even reaches its no-data branch: its `is_date_synced` prologue raises
the same `TypeError` on a fresh history, aborting before any record or
download. -/
theorem no_data_specific_stays_running :
    ((runSyncForDate noDataNet [] [] 20500 (20500 * 86400 + 60)).records.map
        fun r => (r.sync_type, r.status))
      = [("specific", "running")] ∧
    (runSyncForDate noDataNet [] [] 20500 (20500 * 86400 + 60)).raised
      = some PyErr.typeError ∧
    runHistoricalSync noDataNet [] [] 20500 (20500 * 86400 + 60) 7
      = ⟨0, 0, [], [], some PyErr.typeError⟩ := ⟨rfl, rfl, rfl⟩

/-- Propagation of a prologue raise out of the `dates_to_sync` loop. -/
theorem historicalDatesLoop_head_err (records : List SyncRecord)
    (todayDay i : Nat) (rest : List Nat) (e : PyErr)
    (h : isDateSyncedE records (todayDay - i) = .error e) :
    historicalDatesLoop records todayDay (i :: rest) = .error e := by
  unfold historicalDatesLoop
  rw [h]

/-- C4 amended: a no-data date is treated as an error, not recorded as
completed with `processed=0`.  In the specific-date path the run makes one
download attempt and zero merges and calls `update_sync_record` with
`status="failed"`, `error_message="No data available"` — but when at most one
daily row lies in the date's window that update raises `TypeError` (the
spurious `await` of services.py line 521) instead of writing, as does the
failure handler's second attempt, so the freshly created `specific` record
stays `running` and the swallowed exception reaches the outer handler.  The
historical path never reaches its no-data branch at all: when at most one
completed daily row lies in today's window, the `is_date_synced` prologue
raises `TypeError` at its first date and the run aborts with no record
created and no download made. -/
theorem no_data_treated_as_error (net : Nat → Option JValue)
    (records : List SyncRecord) (st : Store) (d now todayDay daysBack : Nat)
    (hnet : net d = none)
    (hfew : (records.filter fun r =>
        r.sync_type == "daily" && inDayWindow d r.started_at).length ≤ 1)
    (hfewc : (records.filter fun r =>
        r.sync_type == "daily" && r.status == "completed" &&
          inDayWindow todayDay r.started_at).length ≤ 1)
    (hback : 1 ≤ daysBack) :
    runSyncForDate net records st d now
      = ⟨1, 0, createSyncRecord records d "specific" now, st,
          some PyErr.typeError⟩ ∧
    ((runSyncForDate net records st d now).records.map (·.status))
      = records.map (·.status) ++ ["running"] ∧
    runHistoricalSync net records st todayDay now daysBack
      = ⟨0, 0, records, st, some PyErr.typeError⟩ := by
  have hfilter : ((createSyncRecord records d "specific" now).filter fun r =>
      r.sync_type == "daily" && inDayWindow d r.started_at).length ≤ 1 := by
    simp only [createSyncRecord, List.filter_append, List.length_append]
    have h1 : (List.filter (fun r =>
        r.sync_type == "daily" && inDayWindow d r.started_at)
        [({ sync_type := "specific", status := "running", sync_date := d,
            started_at := now, records_processed := 0, records_created := 0,
            records_updated := 0, error_message := none } : SyncRecord)]) = [] := rfl
    rw [h1]
    simpa using hfew
  have hupd : ∀ k : SyncUpdateKwargs,
      updateSyncRecordE (createSyncRecord records d "specific" now) d k
        = .error .typeError := by
    intro k
    unfold updateSyncRecordE
    rw [if_neg (by omega)]
  have hspec : runSyncForDate net records st d now
      = ⟨1, 0, createSyncRecord records d "specific" now, st,
          some PyErr.typeError⟩ := by
    unfold runSyncForDate
    rw [hnet]
    dsimp only
    rw [hupd _]
    dsimp only
    rw [hupd _]
  have hsync : isDateSyncedE records (todayDay - 0) = .error .typeError := by
    unfold isDateSyncedE
    rw [Nat.sub_zero, if_neg (by omega)]
  obtain ⟨k, hk⟩ : ∃ k, daysBack = k + 1 := ⟨daysBack - 1, by omega⟩
  have hhist : runHistoricalSync net records st todayDay now daysBack
      = ⟨0, 0, records, st, some PyErr.typeError⟩ := by
    unfold runHistoricalSync
    rw [hk, List.range_succ_eq_map,
      historicalDatesLoop_head_err records todayDay 0 _ _ hsync]
  refine ⟨hspec, ?_, hhist⟩
  rw [hspec]
  simp [createSyncRecord]

/-- Witness for `no_data_treated_as_error` at a concrete input: a fresh
history, a date the source does not know, a 7-day historical lookback. -/
theorem no_data_treated_as_error_witness :
    runSyncForDate noDataNet [] [] 20500 (20500 * 86400 + 60)
      = ⟨1, 0, createSyncRecord [] 20500 "specific" (20500 * 86400 + 60), [],
          some PyErr.typeError⟩ ∧
    runHistoricalSync noDataNet [] [] 20500 (20500 * 86400 + 60) 7
      = ⟨0, 0, [], [], some PyErr.typeError⟩ := by
  have h := no_data_treated_as_error noDataNet [] [] 20500 (20500 * 86400 + 60)
    20500 7 rfl (by decide) (by decide) (by decide)
  exact ⟨h.1, h.2.2⟩

/-- A change-feed payload with one message, one body and one deed group
holding the given deed nodes (the structured-format schema of §6). -/
def mkPayload (ds : List JValue) : JValue :=
  .obj [
    ("Message", .arr [
      .obj [
        ("Body", .arr [
          .obj [
            ("Deeds", .arr [
              .obj [("Deed", .arr ds)]
            ])
          ]
        ])
      ]
    ])
  ]

/-- A deed node carries an identifier and a name when its `$` attribute node
is a dict whose `UIC` and `CompanyName` entries are both truthy. -/
def hasIdAndName (deed : JValue) : Bool :=
  match deed with
  | .obj fields =>
    match lookupField "$" fields with
    | some (.obj attrs) =>
      optTruthy (lookupField "UIC" attrs) && optTruthy (lookupField "CompanyName" attrs)
    | _ => false
  | _ => false

/-- On the one-group payload the parser reduces to the innermost deed loop. -/
theorem parse_mkPayload (ds : List JValue) :
    parseCompanyChanges (mkPayload ds) = deedLoop ds [] := rfl

/-- The deed loop appends exactly the deeds whose extraction succeeds. -/
theorem deedLoop_eq_filterMap (ds : List JValue) :
    ∀ acc : List CompanyData,
      deedLoop ds acc = acc ++ ds.filterMap extractCompanyData := by
  induction ds with
  | nil => intro acc; simp [deedLoop]
  | cons d rest ih =>
    intro acc
    unfold deedLoop
    cases h : extractCompanyData d with
    | some c => simp [h, ih, List.filterMap_cons]
    | none => simp [h, ih, List.filterMap_cons]

/-- Key membership in a dict agrees with lookup success. -/
theorem any_key_eq_isSome (k : String) (l : List (String × JValue)) :
    (l.any fun kv => kv.1 = k) = (lookupField k l).isSome := by
  induction l with
  | nil => rfl
  | cons kv rest ih =>
    by_cases h : kv.1 = k
    · simp [lookupField, h]
    · simp [lookupField, h, ih]

/-- A deed without a truthy identifier and name contributes nothing: every
shape — a non-dict node, a dict without `$`, a non-dict `$`, or falsy/absent
`UIC`/`CompanyName` — ends in `None` (by `return None` or by a caught
exception). -/
theorem extractCompanyData_none_of_missing (deed : JValue)
    (h : hasIdAndName deed = false) : extractCompanyData deed = none := by
  cases deed with
  | null => rfl
  | bool b => rfl
  | num n => rfl
  | str s =>
    unfold extractCompanyData extractCompanyDataE
    cases hc : strContains s "$" <;> simp [pyContainsStr, hc, pyGetItemStr]
  | arr l =>
    unfold extractCompanyData extractCompanyDataE
    cases hc : (l.any fun v => match v with | .str t => t = "$" | _ => false) <;>
      simp [pyContainsStr, hc, pyGetItemStr]
  | obj fields =>
    unfold extractCompanyData extractCompanyDataE
    have hcont : pyContainsStr "$" (.obj fields)
        = .ok (lookupField "$" fields).isSome := by
      simp [pyContainsStr, any_key_eq_isSome]
    rw [hcont]
    cases hf : lookupField "$" fields with
    | none => rfl
    | some v =>
      have hget : pyGetItemStr "$" (.obj fields) = .ok v := by
        simp [pyGetItemStr, hf]
      rw [hget]
      cases v with
      | obj attrs =>
        have hn : (optTruthy (lookupField "UIC" attrs)
            && optTruthy (lookupField "CompanyName" attrs)) = false := by
          simpa [hasIdAndName, hf] using h
        have hor : (!optTruthy (lookupField "UIC" attrs)
            || !optTruthy (lookupField "CompanyName" attrs)) = true := by
          cases h1 : optTruthy (lookupField "UIC" attrs) <;>
            cases h2 : optTruthy (lookupField "CompanyName" attrs) <;>
              simp_all
        simp [pyGet, hor]
      | null => rfl
      | bool b => rfl
      | num n => rfl
      | str s => rfl
      | arr l => rfl

/-- The length of the extracted list counts the extractable deeds. -/
theorem length_filterMap_extract (ds : List JValue) :
    (ds.filterMap extractCompanyData).length
      = ds.countP fun d => (extractCompanyData d).isSome := by
  induction ds with
  | nil => rfl
  | cons d rest ih =>
    cases h : extractCompanyData d <;>
      simp [List.filterMap_cons, h, List.countP_cons, ih]

/-- Extractable and non-extractable deeds partition the deed list. -/
theorem countP_extract_partition (ds : List JValue) :
    ds.countP (fun d => (extractCompanyData d).isSome)
      + ds.countP (fun d => (extractCompanyData d).isNone) = ds.length := by
  induction ds with
  | nil => rfl
  | cons d rest ih =>
    cases h : extractCompanyData d <;> simp [List.countP_cons, h] <;> omega

/-- C6: extraction is total (the model is a plain function into lists — every
exception of the body is caught, by `_extract_company_data` at node level and
by `parse_company_changes` at payload level) and malformed nodes are
isolated: the parse of a payload is exactly the filter-map of per-deed
extraction, a deed lacking a truthy `UIC` or `CompanyName` contributes zero
records, and a payload of 10 deed nodes of which exactly one fails to
extract yields exactly 9 records. -/
theorem deed_extraction_isolates_bad_nodes :
    (∀ ds : List JValue,
      parseCompanyChanges (mkPayload ds) = ds.filterMap extractCompanyData) ∧
    (∀ deed : JValue, hasIdAndName deed = false → extractCompanyData deed = none) ∧
    (∀ ds : List JValue, ds.length = 10 →
      ds.countP (fun d => (extractCompanyData d).isNone) = 1 →
      (parseCompanyChanges (mkPayload ds)).length = 9) := by
  have hparse : ∀ ds : List JValue,
      parseCompanyChanges (mkPayload ds) = ds.filterMap extractCompanyData := by
    intro ds
    rw [parse_mkPayload, deedLoop_eq_filterMap]
    simp
  refine ⟨hparse, extractCompanyData_none_of_missing, ?_⟩
  intro ds hlen hbad
  rw [hparse, length_filterMap_extract]
  have hpart := countP_extract_partition ds
  omega

/-- A well-formed deed node (truthy `UIC` and `CompanyName`, no sub-deeds). -/
def goodDeed : JValue :=
  .obj [("$", .obj [("UIC", .str "123456789"), ("CompanyName", .str "Acme")])]

/-- Ten deed nodes of which exactly one (a bare number) is malformed. -/
def tenDeeds : List JValue := List.replicate 9 goodDeed ++ [.num 7]

/-- Witness for `deed_extraction_isolates_bad_nodes`: the concrete ten-node
payload with one malformed node yields exactly nine records. -/
theorem deed_extraction_isolates_bad_nodes_witness :
    (parseCompanyChanges (mkPayload tenDeeds)).length = 9 ∧
    extractCompanyData (.num 7) = none := by
  refine ⟨deed_extraction_isolates_bad_nodes.2.2 tenDeeds (by decide) (by decide), ?_⟩
  exact deed_extraction_isolates_bad_nodes.2.1 (.num 7) rfl

/-- Inserting a key absent from a dict appends it. -/
theorem assocSet_fresh {α : Type} (l : List (String × α)) (k : String) (v : α)
    (h : ∀ p ∈ l, p.1 ≠ k) : assocSet l k v = l ++ [(k, v)] := by
  unfold assocSet
  have hany : l.any (fun kv => kv.1 == k) = false := by
    rw [List.any_eq_false]
    intro p hp
    simpa using h p hp
  rw [hany]
  simp

/-- When no timestamp is expired, the cleanup sweep does nothing. -/
theorem cleanupFallbackE_fresh (ttlHours now : Nat) (st : FallbackState)
    (h : ∀ p ∈ st.timestamps, now - p.2 ≤ ttlHours * 3600) :
    cleanupFallbackE ttlHours now st = (st, none) := by
  unfold cleanupFallbackE
  have hnil : st.timestamps.filter
      (fun kv => decide (now - kv.2 > ttlHours * 3600)) = [] := by
    rw [List.filter_eq_nil_iff]
    intro p hp
    simpa using Nat.not_lt.mpr (h p hp)
  rw [hnil]
  rfl

/-- Setting a fresh key while every resident timestamp equals `now` is a pure
append: nothing is expired, so the over-capacity sweep removes nothing. -/
theorem setFallback_fresh (ttlHours now : Nat) (k : String) (v : JValue)
    (c : List (String × JValue)) (t : List (String × Nat))
    (hts : ∀ p ∈ t, p.2 = now)
    (hkc : ∀ p ∈ c, p.1 ≠ k)
    (hkt : ∀ p ∈ t, p.1 ≠ k) :
    (setFallback ttlHours now k v ⟨c, t⟩).2
      = ⟨c ++ [(k, v)], t ++ [(k, now)]⟩ := by
  unfold setFallback fbInsert
  rw [assocSet_fresh c k v hkc, assocSet_fresh t k now hkt]
  have hfresh : ∀ p ∈ t ++ [(k, now)], now - p.2 ≤ ttlHours * 3600 := by
    intro p hp
    rcases List.mem_append.mp hp with h1 | h1
    · rw [hts p h1]
      simp
    · simp at h1
      rw [h1]
      simp
  by_cases hlen : (c ++ [(k, v)]).length > 1000
  · simp only [hlen, if_true]
    rw [cleanupFallbackE_fresh ttlHours now ⟨c ++ [(k, v)], t ++ [(k, now)]⟩ hfresh]
  · have hlen' : ¬ (1000 < c.length + 1) := by simpa using hlen
    simp [hlen']

/-- A sequence of `_set_fallback` calls with value `0` at time `now`. -/
def setMany (ttlHours now : Nat) (ks : List String) (st : FallbackState) :
    FallbackState :=
  ks.foldl (fun s k => (setFallback ttlHours now k (.num 0) s).2) st

/-- Setting a list of distinct fresh keys grows the cache by exactly their
number: the sweep (triggered or not) removes nothing. -/
theorem setMany_fresh (ttlHours now : Nat) (ks : List String) :
    ∀ (c : List (String × JValue)) (t : List (String × Nat)),
      (∀ p ∈ t, p.2 = now) →
      (∀ k ∈ ks, (∀ p ∈ c, p.1 ≠ k) ∧ (∀ p ∈ t, p.1 ≠ k)) →
      ks.Nodup →
      (setMany ttlHours now ks ⟨c, t⟩).cache.length = c.length + ks.length ∧
      (∀ p ∈ (setMany ttlHours now ks ⟨c, t⟩).timestamps, p.2 = now) := by
  induction ks with
  | nil =>
    intro c t h1 _ _
    exact ⟨by simp [setMany], h1⟩
  | cons k rest ih =>
    intro c t h1 h2 h3
    have hk := h2 k (List.mem_cons_self k rest)
    have hsm : setMany ttlHours now (k :: rest) ⟨c, t⟩
        = setMany ttlHours now rest (setFallback ttlHours now k (.num 0) ⟨c, t⟩).2 :=
      rfl
    rw [hsm, setFallback_fresh ttlHours now k (.num 0) c t h1 hk.1 hk.2]
    have h1' : ∀ p ∈ t ++ [(k, now)], p.2 = now := by
      intro p hp
      rcases List.mem_append.mp hp with hh | hh
      · exact h1 p hh
      · simp at hh
        rw [hh]
    have hknotin : k ∉ rest := (List.nodup_cons.mp h3).1
    have h2' : ∀ k' ∈ rest,
        (∀ p ∈ c ++ [(k, JValue.num 0)], p.1 ≠ k') ∧
        (∀ p ∈ t ++ [(k, now)], p.1 ≠ k') := by
      intro k' hk'
      have hne : k ≠ k' := fun he => hknotin (he ▸ hk')
      refine ⟨?_, ?_⟩
      · intro p hp
        rcases List.mem_append.mp hp with hh | hh
        · exact (h2 k' (List.mem_cons_of_mem _ hk')).1 p hh
        · simp at hh
          rw [hh]
          exact hne
      · intro p hp
        rcases List.mem_append.mp hp with hh | hh
        · exact (h2 k' (List.mem_cons_of_mem _ hk')).2 p hh
        · simp at hh
          rw [hh]
          exact hne
    have hres := ih (c ++ [(k, JValue.num 0)]) (t ++ [(k, now)]) h1' h2'
      (List.nodup_cons.mp h3).2
    refine ⟨?_, hres.2⟩
    rw [hres.1]
    simp
    omega

/-- 1001 pairwise-distinct keys (`""`, `"a"`, `"aa"`, ...). -/
def freshKeys (n : Nat) : List String :=
  (List.range n).map fun i => String.mk (List.replicate i 'a')

/-- The fresh keys are pairwise distinct. -/
theorem freshKeys_nodup (n : Nat) : (freshKeys n).Nodup := by
  unfold freshKeys
  have hinj : Function.Injective (fun i => String.mk (List.replicate i 'a')) := by
    intro a b hab
    have hd : List.replicate a 'a' = List.replicate b 'a' :=
      congrArg String.data hab
    have := congrArg List.length hd
    simpa using this
  exact (List.nodup_range n).map hinj

/-- C9 counterexample: a sequence of 1001 `set` operations with distinct
keys, starting from the empty fallback tier, leaves 1001 stored entries —
the count exceeds the 1000-entry cap, because the over-capacity sweep only
removes expired entries (and none is expired) and there is no
least-recently-set eviction anywhere in the code. -/
theorem fallback_cache_exceeds_cap :
    (setMany 600 0 (freshKeys 1001) ⟨[], []⟩).cache.length = 1001 ∧
    1000 < 1001 := by
  have h := setMany_fresh 600 0 (freshKeys 1001) [] []
    (by intro p hp; cases hp)
    (by intro k hk; exact ⟨fun p hp => absurd hp (List.not_mem_nil p),
      fun p hp => absurd hp (List.not_mem_nil p)⟩)
    (freshKeys_nodup 1001)
  refine ⟨?_, by decide⟩
  rw [h.1]
  simp [freshKeys]

/-- A key among a dict's keys has a lookup value. -/
theorem assocLookup_isSome {α : Type} (l : List (String × α)) (k : String)
    (h : k ∈ l.map Prod.fst) : (assocLookup l k).isSome := by
  induction l with
  | nil => simp at h
  | cons p rest ih =>
    by_cases hpk : p.1 == k
    · simp [assocLookup, hpk]
    · have h' : k ∈ rest.map Prod.fst := by
        rcases List.mem_map.mp h with ⟨q, hq, hqk⟩
        rcases List.mem_cons.mp hq with hq' | hq'
        · exact absurd (by simp [hq' ▸ hqk]) hpk
        · exact List.mem_map.mpr ⟨q, hq', hqk⟩
      simpa [assocLookup, hpk] using ih h'

/-- A successful lookup names an entry of the dict. -/
theorem assocLookup_mem {α : Type} (l : List (String × α)) (k : String) (v : α)
    (h : assocLookup l k = some v) : (k, v) ∈ l := by
  induction l with
  | nil => cases h
  | cons p rest ih =>
    by_cases hpk : p.1 == k
    · simp only [assocLookup, hpk, if_true, Option.some.injEq] at h
      have hk : p.1 = k := by simpa using hpk
      have : (k, v) = p := by
        rw [← hk, ← h]
      rw [this]
      exact List.mem_cons_self p rest
    · simp only [assocLookup, hpk] at h
      simp at hpk
      exact List.mem_cons_of_mem p (ih (by simpa [hpk] using h))

/-- Deleting one key keeps every other key. -/
theorem mem_keys_assocDelete {α : Type} (l : List (String × α)) (k k' : String)
    (hne : k' ≠ k) (h : k' ∈ l.map Prod.fst) :
    k' ∈ (assocDelete l k).map Prod.fst := by
  rcases List.mem_map.mp h with ⟨p, hp, hpk⟩
  refine List.mem_map.mpr ⟨p, ?_, hpk⟩
  unfold assocDelete
  refine List.mem_filter.mpr ⟨hp, ?_⟩
  simp [hpk, hne]

/-- A pointwise-stronger filter keeps at most as many elements. -/
theorem length_filter_mono {α : Type} (l : List α) (p q : α → Bool)
    (h : ∀ a ∈ l, p a = true → q a = true) :
    (l.filter p).length ≤ (l.filter q).length := by
  induction l with
  | nil => simp
  | cons a rest ih =>
    have ih' := ih fun x hx hpx => h x (List.mem_cons_of_mem a hx) hpx
    by_cases hpa : p a = true
    · have hqa := h a (List.mem_cons_self a rest) hpa
      simp only [List.filter_cons, hpa, hqa, if_true]
      simpa using ih'
    · by_cases hqa : q a = true
      · simp only [List.filter_cons, hqa, if_true, Bool.not_eq_true] at hpa ⊢
        rw [hpa]
        simp only [Bool.false_eq_true, if_false]
        exact le_trans ih' (by simp)
      · simp only [List.filter_cons, Bool.not_eq_true] at hpa hqa ⊢
        rw [hpa, hqa]
        simpa using ih'

/-- Deleting a key then dropping the remaining sweep keys is one filter. -/
theorem assocDelete_filter {α : Type} (l : List (String × α)) (k : String)
    (rest : List String) :
    (assocDelete l k).filter (fun kv => !(rest.contains kv.1))
      = l.filter (fun kv => !((k :: rest).contains kv.1)) := by
  unfold assocDelete
  rw [List.filter_filter]
  apply List.filter_congr
  intro kv _
  by_cases h1 : kv.1 = k <;> by_cases h2 : kv.1 ∈ rest <;>
    simp [List.contains_cons, h1, h2]

/-- The deletion loop of the cleanup sweep, on keys present in both dicts,
removes exactly those keys and raises nothing. -/
theorem cleanupLoop_removes (eks : List String) :
    ∀ (c : List (String × JValue)) (t : List (String × Nat)),
      eks.Nodup →
      (∀ k ∈ eks, k ∈ c.map Prod.fst) →
      (∀ k ∈ eks, k ∈ t.map Prod.fst) →
      cleanupLoop eks ⟨c, t⟩
        = (⟨c.filter (fun kv => !(eks.contains kv.1)),
            t.filter (fun kv => !(eks.contains kv.1))⟩, none) := by
  induction eks with
  | nil =>
    intro c t _ _ _
    simp [cleanupLoop]
  | cons k rest ih =>
    intro c t hnd hc ht
    have hkc := hc k (List.mem_cons_self k rest)
    have hkt := ht k (List.mem_cons_self k rest)
    obtain ⟨v, hv⟩ := Option.isSome_iff_exists.mp (assocLookup_isSome c k hkc)
    obtain ⟨ts, hts⟩ := Option.isSome_iff_exists.mp (assocLookup_isSome t k hkt)
    have hknotin : k ∉ rest := (List.nodup_cons.mp hnd).1
    unfold cleanupLoop
    dsimp only
    rw [hv]
    dsimp only
    rw [hts]
    dsimp only
    rw [ih (assocDelete c k) (assocDelete t k) (List.nodup_cons.mp hnd).2
      (fun k' hk' => mem_keys_assocDelete c k k'
        (fun he => hknotin (he ▸ hk')) (hc k' (List.mem_cons_of_mem _ hk')))
      (fun k' hk' => mem_keys_assocDelete t k k'
        (fun he => hknotin (he ▸ hk')) (ht k' (List.mem_cons_of_mem _ hk')))]
    rw [assocDelete_filter c k rest, assocDelete_filter t k rest]

/-- The keys of a dict after an insertion. -/
theorem assocSet_keys {α : Type} (l : List (String × α)) (k : String) (v : α) :
    (assocSet l k v).map Prod.fst =
      if l.any (fun kv => kv.1 == k) then l.map Prod.fst
      else l.map Prod.fst ++ [k] := by
  unfold assocSet
  by_cases h : l.any (fun kv => kv.1 == k)
  · simp only [h, if_true]
    rw [List.map_map]
    apply List.map_congr_left
    intro a _
    by_cases hak : a.1 = k <;> simp [hak]
  · simp [h]

/-- Key membership read off through `Prod.fst`. -/
theorem any_key_beq {α : Type} (l : List (String × α)) (k : String) :
    (l.any fun kv => kv.1 == k) = ((l.map Prod.fst).any fun x => x == k) := by
  induction l with
  | nil => rfl
  | cons p rest ih => simp [List.any_cons, ih]

/-- An entry's key is expired when its timestamp is and it has one. -/
def keyExpired (ttlHours now : Nat) (st : FallbackState) (k : String) : Bool :=
  match assocLookup st.timestamps k with
  | some ts => decide (now - ts > ttlHours * 3600)
  | none => false

/-- The number of cache entries the sweep would retain. -/
def unexpiredCount (ttlHours now : Nat) (st : FallbackState) : Nat :=
  (st.cache.filter fun kv => !keyExpired ttlHours now st kv.1).length

/-- C9 amended: the over-capacity sweep removes exactly the expired entries
(never by recency), so on a well-formed fallback tier (cache and timestamp
dicts listing the same keys, as every `set`-reachable state does) the entry
count after a `set` stays within the 1000-entry cap exactly when at most
1000 entries of the post-insertion state are unexpired; with no expired
entries the count can exceed the cap (`fallback_cache_exceeds_cap`). -/
theorem fallback_set_bounded_when_expirable (ttlHours now : Nat) (k : String)
    (v : JValue) (st : FallbackState)
    (halign : st.cache.map Prod.fst = st.timestamps.map Prod.fst)
    (hnodup : (st.timestamps.map Prod.fst).Nodup)
    (hcount : unexpiredCount ttlHours now (fbInsert st k v now) ≤ 1000) :
    (setFallback ttlHours now k v st).2.cache.length ≤ 1000 := by
  obtain ⟨c, t⟩ := st
  dsimp only at halign hnodup hcount
  have hcond : (c.any fun kv => kv.1 == k) = (t.any fun kv => kv.1 == k) := by
    rw [any_key_beq, any_key_beq, halign]
  have halign1 : (assocSet c k v).map Prod.fst = (assocSet t k now).map Prod.fst := by
    rw [assocSet_keys, assocSet_keys, hcond, halign]
  have hnodup1 : ((assocSet t k now).map Prod.fst).Nodup := by
    rw [assocSet_keys]
    by_cases h : t.any (fun kv => kv.1 == k)
    · simpa [h] using hnodup
    · simp only [h, if_false]
      have hknot : k ∉ t.map Prod.fst := by
        intro hmem
        rw [any_key_beq] at h
        exact h (List.any_eq_true.mpr ⟨k, hmem, by simp⟩)
      exact List.Nodup.append hnodup (List.nodup_singleton k)
        ((List.disjoint_singleton).mpr hknot)
  by_cases hlen : (assocSet c k v).length > 1000
  · have heks : ∀ k' ∈ ((assocSet t k now).filter
        (fun kv => decide (now - kv.2 > ttlHours * 3600))).map Prod.fst,
        k' ∈ (assocSet t k now).map Prod.fst := by
      intro k' hk'
      rcases List.mem_map.mp hk' with ⟨p, hp, hpk⟩
      exact List.mem_map.mpr ⟨p, List.mem_of_mem_filter hp, hpk⟩
    have heksnd : (((assocSet t k now).filter
        (fun kv => decide (now - kv.2 > ttlHours * 3600))).map Prod.fst).Nodup :=
      List.Nodup.sublist (List.Sublist.map Prod.fst (List.filter_sublist _)) hnodup1
    have hclean := cleanupLoop_removes
      (((assocSet t k now).filter
        (fun kv => decide (now - kv.2 > ttlHours * 3600))).map Prod.fst)
      (assocSet c k v) (assocSet t k now) heksnd
      (fun k' hk' => halign1 ▸ heks k' hk') heks
    have hres : (setFallback ttlHours now k v ⟨c, t⟩).2
        = ⟨(assocSet c k v).filter (fun kv =>
            !((((assocSet t k now).filter
              (fun kv => decide (now - kv.2 > ttlHours * 3600))).map
                Prod.fst).contains kv.1)),
          (assocSet t k now).filter (fun kv =>
            !((((assocSet t k now).filter
              (fun kv => decide (now - kv.2 > ttlHours * 3600))).map
                Prod.fst).contains kv.1))⟩ := by
      simp only [setFallback, fbInsert, hlen, if_true, cleanupFallbackE]
      rw [hclean]
    rw [hres]
    have hmono := length_filter_mono (assocSet c k v)
      (fun kv => !((((assocSet t k now).filter
        (fun kv => decide (now - kv.2 > ttlHours * 3600))).map
          Prod.fst).contains kv.1))
      (fun kv => !keyExpired ttlHours now (fbInsert ⟨c, t⟩ k v now) kv.1)
      ?hpoint
    · exact le_trans hmono hcount
    · intro kv _ hnc
      simp only at hnc
      cases hke : keyExpired ttlHours now (fbInsert ⟨c, t⟩ k v now) kv.1 with
      | false => simp [hke]
      | true =>
        exfalso
        unfold keyExpired at hke
        rcases hlk : assocLookup (fbInsert ⟨c, t⟩ k v now).timestamps kv.1 with _ | ts
        · rw [hlk] at hke
          cases hke
        · rw [hlk] at hke
          have hmem : (kv.1, ts) ∈ assocSet t k now := assocLookup_mem _ _ _ hlk
          have hinf : (kv.1, ts) ∈ (assocSet t k now).filter
              (fun kv => decide (now - kv.2 > ttlHours * 3600)) :=
            List.mem_filter.mpr ⟨hmem, by simpa using hke⟩
          have hkeys : kv.1 ∈ ((assocSet t k now).filter
              (fun kv => decide (now - kv.2 > ttlHours * 3600))).map Prod.fst :=
            List.mem_map.mpr ⟨(kv.1, ts), hinf, rfl⟩
          have hcontains : (((assocSet t k now).filter
              (fun kv => decide (now - kv.2 > ttlHours * 3600))).map
                Prod.fst).contains kv.1 = true := by
            simpa using hkeys
          rw [hcontains] at hnc
          cases hnc
  · have hres : (setFallback ttlHours now k v ⟨c, t⟩).2
        = ⟨assocSet c k v, assocSet t k now⟩ := by
      simp [setFallback, fbInsert, hlen]
    rw [hres]
    dsimp only
    omega

/-- Witness for `fallback_set_bounded_when_expirable` at a concrete input. -/
theorem fallback_set_bounded_when_expirable_witness :
    (setFallback 1 0 "a" (.num 0) ⟨[], []⟩).2.cache.length ≤ 1000 :=
  fallback_set_bounded_when_expirable 1 0 "a" (.num 0) ⟨[], []⟩ rfl
    (by simp) (by decide)

end Beacon
